import Mathlib

/-!
Verification development for the BotShepherd WebSocket proxy.

This file gives a shallow embedding of the parts of the code base that the
checked claims are about:

* `app/sakoya/models.py` — the Sakoya (早柚) protocol data model and the four
  converters of `SakowaConverter`;
* `app/server/sakoya_adapter.py` — the protocol-translating WebSocket adapter
  (its `send`/`recv` classification logic and the reply cache);
* `app/server/proxy_server.py` — the per-connection proxy engine: echo cache,
  client-message and target-message processing, target reload, and the
  duplicate-client accept policy;
* `app/server/unified_proxy_server.py` — the path-routing listener's accept
  policy.

Python dynamic values are modelled by the JSON-like type `JVal`; Python
`str()`, truthiness, `str.isdigit`, `int()`, dict/`in` semantics are modelled
by the `py*` helpers below.  Code that can raise (attribute errors on
dynamically typed data, `ValueError` from `int`, `KeyError` from indexing) is
modelled in the `Except PyErr` monad.  WebSocket text frames are represented
by their JSON parse tree (`RawFrame.jsonF`) or, when not valid JSON, by the
raw text (`RawFrame.textF`); `json.dumps` of a produced object is represented
by the object itself.
-/

namespace BotShepherd

/-! ## Python value model -/

mutual
/-- A Python/JSON value: `None`, booleans, integers, strings, lists, dicts.
Dicts are insertion-ordered association lists, as in CPython. -/
inductive JVal where
  | null
  | bool (b : Bool)
  | num (n : Int)
  | str (s : String)
  | arr (xs : JList)
  | obj (fs : JFields)
deriving DecidableEq

/-- A list of `JVal`s (spelled out so that structural recursion works). -/
inductive JList where
  | nil
  | cons (hd : JVal) (tl : JList)
deriving DecidableEq

/-- Ordered fields of a JSON object / Python dict. -/
inductive JFields where
  | nil
  | cons (k : String) (v : JVal) (tl : JFields)
deriving DecidableEq
end

def JList.ofList : List JVal → JList
  | [] => .nil
  | x :: xs => .cons x (JList.ofList xs)

def JList.toList : JList → List JVal
  | .nil => []
  | .cons x xs => x :: JList.toList xs

def JFields.ofList : List (String × JVal) → JFields
  | [] => .nil
  | (k, v) :: xs => .cons k v (JFields.ofList xs)

def JFields.toList : JFields → List (String × JVal)
  | .nil => []
  | .cons k v xs => (k, v) :: JFields.toList xs

/-- First-match lookup in a dict (CPython dict keys are unique, so first
match is the semantics of `d[k]` / `d.get(k)`). -/
def JFields.lookup : JFields → String → Option JVal
  | .nil, _ => none
  | .cons k v tl, key => if k = key then some v else JFields.lookup tl key

def JFields.hasKey (fs : JFields) (k : String) : Bool :=
  (fs.lookup k).isSome

/-- Dict assignment `d[k] = v`: replaces in place when the key exists
(keeping its position), appends otherwise — CPython insertion-order
semantics. -/
def JFields.upsert : JFields → String → JVal → JFields
  | .nil, key, v => .cons key v .nil
  | .cons k w tl, key, v =>
    if k = key then .cons k v tl else .cons k w (tl.upsert key v)

def JFields.length : JFields → Nat
  | .nil => 0
  | .cons _ _ tl => 1 + tl.length

def JList.length : JList → Nat
  | .nil => 0
  | .cons _ tl => 1 + tl.length

/-- Python truthiness: `None`, `False`, `0`, `""`, `[]`, `{}` are falsy. -/
def pyTruthy : JVal → Bool
  | .null => false
  | .bool b => b
  | .num n => n != 0
  | .str s => s ≠ ""
  | .arr .nil => false
  | .arr _ => true
  | .obj .nil => false
  | .obj _ => true

/-- Python `repr` of a string.  Rendered in single quotes (double quotes when
the string contains a single quote but no double quote), without escaping —
exact for the quote-free, control-free strings this development evaluates
`repr` on. -/
def pyReprStr (s : String) : String :=
  if s.toList.contains '\'' ∧ ¬ s.toList.contains '"' then
    "\"" ++ s ++ "\""
  else
    "'" ++ s ++ "'"

mutual
/-- Python `repr` on the modelled values. -/
def pyRepr : JVal → String
  | .null => "None"
  | .bool b => if b then "True" else "False"
  | .num n => toString n
  | .str s => pyReprStr s
  | .arr xs => "[" ++ pyReprL xs ++ "]"
  | .obj fs => "\x7b" ++ pyReprF fs ++ "\x7d"

def pyReprL : JList → String
  | .nil => ""
  | .cons x .nil => pyRepr x
  | .cons x tl => pyRepr x ++ ", " ++ pyReprL tl

def pyReprF : JFields → String
  | .nil => ""
  | .cons k v .nil => pyReprStr k ++ ": " ++ pyRepr v
  | .cons k v tl => pyReprStr k ++ ": " ++ pyRepr v ++ ", " ++ pyReprF tl
end

/-- Python `str()`: identity on strings, `repr` otherwise (they agree on
`None`, booleans, numbers and containers). -/
def pyStr : JVal → String
  | .str s => s
  | v => pyRepr v

/-- Characters accepted by Python `str.isdigit`.  Exact on ASCII; of the
non-decimal Unicode digits that `str.isdigit` also accepts we model the
compatibility superscripts `¹ ² ³` (code points U+00B9, U+00B2, U+00B3),
which are the only non-ASCII characters this development evaluates the
predicate on.  These are exactly the characters on which `str.isdigit` is
true while `int()` raises `ValueError`. -/
def pyIsDigitChar (c : Char) : Bool :=
  c.isDigit || c = '¹' || c = '²' || c = '³'

/-- Python `s.isdigit()`. -/
def pyStrIsDigit (s : String) : Bool :=
  s ≠ "" && s.toList.all pyIsDigitChar

def asciiDigitsToNat (cs : List Char) : Nat :=
  cs.foldl (fun acc c => acc * 10 + (c.toNat - '0'.toNat)) 0

/-- Errors of the modelled Python code. -/
inductive PyErr where
  | attributeError
  | typeError
  | valueError
  | keyError
deriving DecidableEq

/-- Python `int(s)` on a string, on the domain this development uses it on
(strings that already passed an `isdigit` guard): a non-empty all-ASCII-digit
string parses to its value; a string containing a non-decimal digit such as
`'²'` raises `ValueError`. -/
def pyIntOfString (s : String) : Except PyErr Int :=
  if s ≠ "" ∧ s.toList.all Char.isDigit then
    .ok (asciiDigitsToNat s.toList)
  else
    .error .valueError

/-- Python `int(v)` on a dynamic value: identity on ints, 0/1 on bools,
string parsing on strings, `TypeError` otherwise. -/
def pyIntFn : JVal → Except PyErr Int
  | .num n => .ok n
  | .bool b => .ok (if b then 1 else 0)
  | .str s => pyIntOfString s
  | _ => .error .typeError

/-- The recurring idiom `int(x) if x and str(x).isdigit() else 0`. -/
def guardedPyInt (v : JVal) : Except PyErr Int :=
  if pyTruthy v && pyStrIsDigit (pyStr v) then pyIntFn v else .ok 0

/-- `s.startswith(p)` (total; attribute errors at call sites are handled
where the receiver may not be a string). -/
def strStartsWith (s p : String) : Bool :=
  p.toList.isPrefixOf s.toList

def strDropN (s : String) (n : Nat) : String := ⟨s.toList.drop n⟩

def strTakeN (s : String) (n : Nat) : String := ⟨s.toList.take n⟩

def strLen (s : String) : Nat := s.toList.length

def containsSubAux : List Char → List Char → Bool
  | _, [] => true
  | [], _ :: _ => false
  | h :: t, needle => needle.isPrefixOf (h :: t) || containsSubAux t needle

/-- Python `needle in hay` on strings (substring test). -/
def strContainsSub (hay needle : String) : Bool :=
  containsSubAux hay.toList needle.toList

/-- Python `s.split(c, 1)`: `some (before, after)` when `c` occurs. -/
def splitOnce : List Char → Char → Option (List Char × List Char)
  | [], _ => none
  | h :: t, c =>
    if h = c then some ([], t)
    else
      match splitOnce t c with
      | some (a, b) => some (h :: a, b)
      | none => none

/-- Python `needle in v` for a string needle against a dynamic value: key
membership on dicts, element equality on lists, substring test on strings,
`TypeError` otherwise. -/
def pyInB (needle : String) (v : JVal) : Except PyErr Bool :=
  match v with
  | .obj fs => .ok (fs.hasKey needle)
  | .arr xs => .ok (xs.toList.contains (.str needle))
  | .str s => .ok (strContainsSub s needle)
  | _ => .error .typeError

/-- Python `v.get(k, d)`: `AttributeError` unless `v` is a dict. -/
def pyDictGetD (v : JVal) (k : String) (d : JVal) : Except PyErr JVal :=
  match v with
  | .obj fs => .ok ((fs.lookup k).getD d)
  | _ => .error .attributeError

/-- Python iteration `for x in v`: list elements, string characters, dict
keys; `TypeError` otherwise. -/
def pyIterJ : JVal → Except PyErr (List JVal)
  | .arr xs => .ok xs.toList
  | .str s => .ok (s.toList.map (fun c => .str (String.singleton c)))
  | .obj fs => .ok (fs.toList.map (fun p => .str p.1))
  | _ => .error .typeError

def asObjE : JVal → Except PyErr JFields
  | .obj fs => .ok fs
  | _ => .error .attributeError

def asStrE : JVal → Except PyErr String
  | .str s => .ok s
  | _ => .error .attributeError

def JVal.isObj : JVal → Bool
  | .obj _ => true
  | _ => false

/-! ## Sakoya data model (`app/sakoya/models.py`)

`Message` is a msgspec struct with `type: Optional[str]` and `data:
Optional[Any]`; after a msgspec decode its fields satisfy those types, which
`SMsg` states directly.  `MessageReceive` is also consumed through
`MessageReceive(**data)` on raw JSON, where the attribute values are
arbitrary Python data, so the receive-side converter operates on the
duck-typed `MessageReceiveD` whose fields are raw `JVal`s and whose content
items are either real `Message` objects or raw values (on which `.type`
raises `AttributeError`). -/

/-- The msgspec `Message` struct (models.py lines 14-17). -/
structure SMsg where
  type : Option String := none
  data : JVal := .null
deriving DecidableEq

/-- The msgspec `MessageSend` struct (models.py lines 46-53), with the
declared field types. -/
structure MessageSend where
  bot_id : String := "Bot"
  bot_self_id : String := ""
  msg_id : String := ""
  target_type : Option String := none
  target_id : Option String := none
  content : Option (List SMsg) := none
deriving DecidableEq

/-- A content element as seen by `sakoya_to_onebot`: either a `Message`
object (attribute access succeeds) or a raw Python value (attribute access
raises). -/
inductive CItem where
  | msg (m : SMsg)
  | raw (v : JVal)
deriving DecidableEq

def CItem.typeAttr : CItem → Except PyErr JVal
  | .msg m => .ok (match m.type with | some s => .str s | none => .null)
  | .raw _ => .error .attributeError

def CItem.dataAttr : CItem → Except PyErr JVal
  | .msg m => .ok m.data
  | .raw _ => .error .attributeError

/-- The `content` attribute: a Python list of content elements, or any other
value (`None`, a string, a dict, ...). -/
inductive ContentVal where
  | objs (l : List CItem)
  | nonList (v : JVal)
deriving DecidableEq

/-- `for msg in message.content`: iterating a list yields its elements, a
string its characters, a dict its keys; other values raise `TypeError`. -/
def iterateContent : ContentVal → Except PyErr (List CItem)
  | .objs l => .ok l
  | .nonList v => (pyIterJ v).map (List.map CItem.raw)

/-- `MessageReceive` as the receive-side converter sees it: attribute values
are arbitrary Python data (msgspec structs do not validate on
construction). -/
structure MessageReceiveD where
  bot_id : JVal := .str "Bot"
  bot_self_id : JVal := .str ""
  msg_id : JVal := .str ""
  user_type : JVal := .str "group"
  group_id : JVal := .null
  user_id : JVal := .null
  sender : JVal := .obj .nil
  user_pm : JVal := .num 3
  content : ContentVal := .objs []
deriving DecidableEq

def optStrJ : Option String → JVal
  | some s => .str s
  | none => .null

/-- `{"type": msg.type, "data": msg.data}` — the JSON rendering of a
`Message` object. -/
def msgToJ (m : SMsg) : JVal :=
  .obj (.ofList [("type", optStrJ m.type), ("data", m.data)])

/-! ### OneBot segment constructors shared by the converters -/

def textSeg (s : String) : JVal :=
  .obj (.ofList [("type", .str "text"), ("data", .obj (.ofList [("text", .str s)]))])

def atSeg (q : String) : JVal :=
  .obj (.ofList [("type", .str "at"), ("data", .obj (.ofList [("qq", .str q)]))])

def imageSegJ (fileVal : JVal) : JVal :=
  .obj (.ofList [("type", .str "image"), ("data", .obj (.ofList [("file", fileVal)]))])

def replySegJ (i : String) : JVal :=
  .obj (.ofList [("type", .str "reply"), ("data", .obj (.ofList [("id", .str i)]))])

def recordSegJ (fileVal : JVal) : JVal :=
  .obj (.ofList [("type", .str "record"), ("data", .obj (.ofList [("file", fileVal)]))])

def fileSegJ (fileVal nameVal : JVal) : JVal :=
  .obj (.ofList [("type", .str "file"),
    ("data", .obj (.ofList [("file", fileVal), ("name", nameVal)]))])

/-! ### `SakowaConverter.sakoya_to_onebot` (models.py lines 188-358) -/

/-- The `node` branch's inner loop over one forwarded sub-message
(models.py lines 287-293): `sub_seg.get` raises unless the element is a
dict; only text sub-segments contribute, to `raw_message` only. -/
def nodeRawInner : List JVal → Except PyErr (List String)
  | [] => .ok []
  | el :: rest => do
    let t ← pyDictGetD el "type" .null
    let d ← pyDictGetD el "data" .null
    let more ← nodeRawInner rest
    if t = JVal.str "text" then
      return pyStr d :: more
    else
      return more

def nodeRawOuter : List JVal → Except PyErr (List String)
  | [] => .ok []
  | subMsg :: rest => do
    let elems ← pyIterJ subMsg
    let here ← nodeRawInner elems
    let more ← nodeRawOuter rest
    return here ++ more

/-- One iteration of the receive-side segment loop (models.py lines
211-310), given the element's `type` and `data` attribute values; returns
the contributed OneBot segments and `raw_message` parts. -/
def recvSeg1 (t d : JVal) : Except PyErr (List JVal × List String) :=
  if t = JVal.str "text" then
    let c := if pyTruthy d then pyStr d else ""
    .ok ([textSeg c], [c])
  else if t = JVal.str "at" then
    let c := if pyTruthy d then pyStr d else ""
    .ok ([atSeg c], ["@" ++ c])
  else if t = JVal.str "image" then
    match d with
    | .obj fs =>
      let imgType := (fs.lookup "type").getD (.str "url")
      let imgContent := (fs.lookup "content").getD (.str "")
      if imgType = JVal.str "url" then
        .ok ([imageSegJ imgContent], ["[图片]"])
      else if imgType = JVal.str "b64" then do
        let s ← asStrE imgContent
        if strStartsWith s "base64://" then
          .ok ([imageSegJ imgContent], ["[图片]"])
        else
          .ok ([imageSegJ (.str ("base64://" ++ s))], ["[图片]"])
      else if imgType = JVal.str "file" then
        .ok ([imageSegJ imgContent], ["[图片]"])
      else
        .ok ([], ["[图片]"])
    | _ => .ok ([], ["[图片]"])
  else if t = JVal.str "reply" then
    let c := if pyTruthy d then pyStr d else ""
    .ok ([replySegJ c], ["[回复]"])
  else if t = JVal.str "record" then
    match d with
    | .str s => .ok ([recordSegJ (.str s)], ["[语音]"])
    | _ => .ok ([], ["[语音]"])
  else if t = JVal.str "file" then
    match d with
    | .str s =>
      match splitOnce s.toList '|' with
      | some (name, b64) =>
        .ok ([fileSegJ (.str ("base64://" ++ String.mk b64)) (.str (String.mk name))], ["[文件]"])
      | none => .ok ([], ["[文件]"])
    | _ => .ok ([], ["[文件]"])
  else if t = JVal.str "node" then
    match d with
    | .arr l => do
      let raws ← nodeRawOuter l.toList
      .ok ([], raws)
    | _ => .ok ([], [])
  else if t = JVal.str "markdown" then
    let c := if pyTruthy d then pyStr d else ""
    .ok ([textSeg c], [c])
  else if t = JVal.str "buttons" then
    .ok ([], ["[按钮消息]"])
  else
    .ok ([], if pyTruthy d then [pyStr d] else [])

/-- The receive-side segment loop; an element on which attribute access or a
branch body raises aborts the whole conversion, as in Python. -/
def recvSegs : List CItem → Except PyErr (List JVal × List String)
  | [] => .ok ([], [])
  | it :: rest => do
    let t ← it.typeAttr
    let d ← it.dataAttr
    let (seg, raw) ← recvSeg1 t d
    let (segs, raws) ← recvSegs rest
    return (seg ++ segs, raw ++ raws)

/-- `SakowaConverter.sakoya_to_onebot`: Sakoya `MessageReceive` to OneBot v11
message event.  The produced event dict is returned as its JSON value. -/
def sakoya_to_onebot (m : MessageReceiveD) : Except PyErr JVal := do
  let is_group := m.user_type = JVal.str "group"
  let sender := if pyTruthy m.sender then m.sender else .obj .nil
  let items ← iterateContent m.content
  let (segs, raws) ← recvSegs items
  let raw_message := String.join raws
  let uid ← guardedPyInt m.user_id
  let nickname ← pyDictGetD sender "nickname" (.str "")
  let card ← pyDictGetD sender "card" (.str "")
  let sex ← pyDictGetD sender "sex" (.str "unknown")
  let age ← pyDictGetD sender "age" (.num 0)
  let area ← pyDictGetD sender "area" (.str "")
  let level ← pyDictGetD sender "level" (.str "")
  let role ← pyDictGetD sender "role" (.str "member")
  let title ← pyDictGetD sender "title" (.str "")
  let onebot_sender : JVal := .obj (.ofList
    [("user_id", .num uid), ("nickname", nickname), ("card", card), ("sex", sex),
     ("age", age), ("area", area), ("level", level), ("role", role), ("title", title)])
  let mid ← guardedPyInt m.msg_id
  let sid ← guardedPyInt m.bot_self_id
  if is_group then do
    let gid ← guardedPyInt m.group_id
    return .obj (.ofList
      [("post_type", .str "message"), ("message_type", .str "group"),
       ("sub_type", .str "normal"), ("message_id", .num mid), ("group_id", .num gid),
       ("user_id", .num uid), ("raw_message", .str raw_message),
       ("message", .arr (JList.ofList segs)), ("font", .num 0),
       ("sender", onebot_sender), ("time", .num 0), ("self_id", .num sid)])
  else
    return .obj (.ofList
      [("post_type", .str "message"), ("message_type", .str "private"),
       ("sub_type", .str "friend"), ("message_id", .num mid),
       ("user_id", .num uid), ("raw_message", .str raw_message),
       ("message", .arr (JList.ofList segs)), ("font", .num 0),
       ("sender", onebot_sender), ("time", .num 0), ("self_id", .num sid)])

/-! ### `SakowaConverter.sakoya_send_to_onebot_api` (models.py lines 360-495) -/

/-- `int(x) if x and str(x).isdigit() else 0` on an `Optional[str]` field. -/
def optIdToInt : Option String → Except PyErr Int
  | none => .ok 0
  | some s => if s ≠ "" && pyStrIsDigit s then pyIntOfString s else .ok 0

/-- One iteration of the send-side segment loop (models.py lines 379-466).
A `None` segment type falls through every equality test to
`msg.type.startswith("log_")`, which raises `AttributeError`. -/
def sendSeg1 (m : SMsg) : Except PyErr (List JVal) :=
  match m.type with
  | some "text" => .ok [textSeg (if pyTruthy m.data then pyStr m.data else "")]
  | some "at" => .ok [atSeg (if pyTruthy m.data then pyStr m.data else "")]
  | some "image" =>
    match m.data with
    | .obj fs =>
      let imgType := (fs.lookup "type").getD (.str "url")
      let imgContent := (fs.lookup "content").getD (.str "")
      if imgType = JVal.str "b64" then do
        let s ← asStrE imgContent
        let s' := if strStartsWith s "base64://" then s else "base64://" ++ s
        .ok [imageSegJ (.str s')]
      else if imgType = JVal.str "url" then
        .ok [imageSegJ imgContent]
      else if imgType = JVal.str "file" then
        .ok [imageSegJ imgContent]
      else
        .ok []
    | d =>
      let imgStr := if pyTruthy d then pyStr d else ""
      .ok (if imgStr ≠ "" then [imageSegJ (.str imgStr)] else [])
  | some "reply" => .ok [replySegJ (if pyTruthy m.data then pyStr m.data else "")]
  | some "record" => .ok [recordSegJ (.str (if pyTruthy m.data then pyStr m.data else ""))]
  | some "file" =>
    match m.data with
    | .str s =>
      match splitOnce s.toList '|' with
      | some (name, b64) =>
        .ok [fileSegJ (.str ("base64://" ++ String.mk b64)) (.str (String.mk name))]
      | none => .ok []
    | _ => .ok []
  | some "markdown" => .ok [textSeg (if pyTruthy m.data then pyStr m.data else "")]
  | some t =>
    if strStartsWith t "log_" then .ok []
    else .ok (if pyTruthy m.data then [textSeg (pyStr m.data)] else [])
  | none => .error .attributeError

def sendSegs : List SMsg → Except PyErr (List JVal)
  | [] => .ok []
  | m :: rest => do
    let here ← sendSeg1 m
    let more ← sendSegs rest
    return here ++ more

/-- `SakowaConverter.sakoya_send_to_onebot_api`: Sakoya `MessageSend` to a
OneBot v11 send API call.  `echo` stands for the freshly generated
`uuid.uuid4().hex` value. -/
def sakoya_send_to_onebot_api (m : MessageSend) (echo : String) : Except PyErr JVal := do
  let is_group := m.target_type = some "group"
  let segs0 ← sendSegs (m.content.getD [])
  let segs := if segs0 = [] then [textSeg ""] else segs0
  let tid ← optIdToInt m.target_id
  if is_group then
    return .obj (.ofList
      [("action", .str "send_group_msg"),
       ("params", .obj (.ofList [("group_id", .num tid),
         ("message", .arr (JList.ofList segs))])),
       ("echo", .str echo)])
  else
    return .obj (.ofList
      [("action", .str "send_private_msg"),
       ("params", .obj (.ofList [("user_id", .num tid),
         ("message", .arr (JList.ofList segs))])),
       ("echo", .str echo)])

/-! ### `SakowaConverter.onebot_event_to_sakoya` (models.py lines 59-186) -/

/-- One iteration of the forward segment loop (models.py lines 84-122),
given the segment's `type` and `data` values. -/
def fwdSeg1 (t d : JVal) : Except PyErr (List SMsg) :=
  if t = JVal.str "text" then do
    let s ← pyDictGetD d "text" (.str "")
    .ok [⟨some "text", .str (pyStr s)⟩]
  else if t = JVal.str "at" then do
    let q ← pyDictGetD d "qq" (.str "")
    .ok [⟨some "at", .str (pyStr q)⟩]
  else if t = JVal.str "image" then do
    let imgUrl ← pyDictGetD d "url" (.str "")
    let imgFile ← pyDictGetD d "file" (.str "")
    let imgSource := if pyTruthy imgUrl then imgUrl else imgFile
    let s ← asStrE imgSource
    if strStartsWith s "base64://" then
      .ok [⟨some "image", imgSource⟩]
    else if strStartsWith s "http" then
      .ok [⟨some "image", imgSource⟩]
    else if pyTruthy imgUrl then
      .ok [⟨some "image", imgUrl⟩]
    else
      .ok [⟨some "image", imgSource⟩]
  else if t = JVal.str "record" then do
    let f ← pyDictGetD d "file" (.str "")
    .ok [⟨some "record", .str (pyStr f)⟩]
  else if t = JVal.str "reply" then do
    let i ← pyDictGetD d "id" (.str "")
    .ok [⟨some "reply", .str (pyStr i)⟩]
  else
    .ok [⟨some "text", .str (pyStr d)⟩]

/-- The forward segment loop; elements that are not dicts are skipped. -/
def fwdSegs : List JVal → Except PyErr (List SMsg)
  | [] => .ok []
  | v :: rest => do
    let here ← (match v with
      | .obj fs => fwdSeg1 ((fs.lookup "type").getD .null) ((fs.lookup "data").getD (.obj .nil))
      | _ => .ok [])
    let more ← fwdSegs rest
    return here ++ more

/-- Reply-context enrichment (models.py lines 134-157): image segments of
the quoted message are appended as structured `{type, content}` image
messages. -/
def replyImgs : List JVal → Except PyErr (List SMsg)
  | [] => .ok []
  | v :: rest => do
    let here ← (match v with
      | .obj fs => do
        let t := (fs.lookup "type").getD .null
        let d := (fs.lookup "data").getD (.obj .nil)
        if t = JVal.str "image" ∧ pyTruthy d then do
          let f ← pyDictGetD d "file" (.str "")
          let s ← asStrE f
          if strStartsWith s "base64://" then
            .ok [⟨some "image", .obj (.ofList
              [("type", .str "b64"), ("content", .str (strDropN s 9))])⟩]
          else if strStartsWith s "http" then
            .ok [⟨some "image", .obj (.ofList
              [("type", .str "url"), ("content", .str s)])⟩]
          else
            .ok [⟨some "image", .obj (.ofList
              [("type", .str "file"), ("content", .str s)])⟩]
        else
          .ok []
      | _ => .ok [])
    let more ← replyImgs rest
    return here ++ more

/-- `SakowaConverter.onebot_event_to_sakoya`: OneBot v11 message event to a
Sakoya `MessageReceive`.  Returns `none` for non-message events; the UTF-8
JSON bytes the source produces are represented by the encoded object. -/
def onebot_event_to_sakoya (event : JVal) (bot_id : String) : Except PyErr (Option JVal) := do
  let post_type ← pyDictGetD event "post_type" .null
  if post_type ≠ JVal.str "message" then
    return none
  let message_type ← pyDictGetD event "message_type" (.str "")
  let is_group := message_type = JVal.str "group"
  let msgsJ ← pyDictGetD event "message" (.arr .nil)
  let items ← pyIterJ msgsJ
  let content0 ← fwdSegs items
  let reply_data ← pyDictGetD event "reply" .null
  let content ← (match reply_data with
    | .obj rfs =>
      if pyTruthy (.obj rfs) then do
        let reply_message := (rfs.lookup "message").getD (.arr .nil)
        if pyTruthy reply_message then do
          let items2 ← pyIterJ reply_message
          let extra ← replyImgs items2
          pure (content0 ++ extra)
        else
          pure content0
      else
        pure content0
    | _ => pure content0)
  let sender ← pyDictGetD event "sender" (.obj .nil)
  let nick ← pyDictGetD sender "nickname" (.str "")
  let card ← pyDictGetD sender "card" (.str "")
  let sakoya_sender : JVal := .obj (.ofList
    [("nickname", .str (pyStr nick)), ("card", .str (pyStr card))])
  let bsid ← pyDictGetD event "self_id" (.str "")
  let midv ← pyDictGetD event "message_id" (.str "")
  let uidv ← pyDictGetD event "user_id" (.str "")
  let base : List (String × JVal) :=
    [("bot_id", .str bot_id), ("bot_self_id", .str (pyStr bsid)),
     ("msg_id", .str (pyStr midv)),
     ("user_type", .str (if is_group then "group" else "direct")),
     ("user_id", .str (pyStr uidv)), ("sender", sakoya_sender),
     ("user_pm", .num 3),
     ("content", .arr (JList.ofList (content.map msgToJ)))]
  if is_group then do
    let gidv ← pyDictGetD event "group_id" (.str "")
    return some (.obj (.ofList (base ++ [("group_id", .str (pyStr gidv))])))
  else
    return some (.obj (.ofList base))

/-! ### `SakowaConverter.onebot_to_sakoya` (models.py lines 497-595) -/

/-- One iteration of the OneBot-to-`MessageSend` segment loop (models.py
lines 526-577). -/
def o2sSeg1 (t d : JVal) : Except PyErr (List SMsg) :=
  if t = JVal.str "text" then do
    let s ← pyDictGetD d "text" (.str "")
    .ok [⟨some "text", s⟩]
  else if t = JVal.str "at" then do
    let q ← pyDictGetD d "qq" (.str "")
    .ok [⟨some "at", q⟩]
  else if t = JVal.str "image" then do
    let f ← pyDictGetD d "file" (.str "")
    let s ← asStrE f
    if strStartsWith s "base64://" then
      .ok [⟨some "image", .obj (.ofList [("type", .str "b64"), ("content", .str (strDropN s 9))])⟩]
    else if strStartsWith s "http" then
      .ok [⟨some "image", .obj (.ofList [("type", .str "url"), ("content", .str s)])⟩]
    else
      .ok [⟨some "image", .obj (.ofList [("type", .str "file"), ("content", .str s)])⟩]
  else if t = JVal.str "record" then do
    let f ← pyDictGetD d "file" (.str "")
    .ok [⟨some "record", f⟩]
  else if t = JVal.str "file" then do
    let fileData ← pyDictGetD d "file" (.str "")
    let fileName ← pyDictGetD d "name" (.str "unknown")
    let s ← asStrE fileData
    if strStartsWith s "base64://" then
      .ok [⟨some "file", .str (pyStr fileName ++ "|" ++ strDropN s 9)⟩]
    else
      .ok [⟨some "text", .str ("[文件: " ++ pyStr fileName ++ "]")⟩]
  else if t = JVal.str "reply" then do
    let i ← pyDictGetD d "id" (.str "")
    .ok [⟨some "reply", i⟩]
  else if t = JVal.str "forward" ∨ t = JVal.str "node" then
    .ok [⟨some "text", .str "[合并转发消息暂不支持]"⟩]
  else
    .ok [⟨some "text", .str (pyStr d)⟩]

def o2sSegs : List JVal → Except PyErr (List SMsg)
  | [] => .ok []
  | v :: rest => do
    let here ← (match v with
      | .obj fs => o2sSeg1 ((fs.lookup "type").getD .null) ((fs.lookup "data").getD (.obj .nil))
      | _ => .ok [])
    let more ← o2sSegs rest
    return here ++ more

/-- `SakowaConverter.onebot_to_sakoya`: a OneBot send API call to a Sakoya
`MessageSend`; the produced JSON bytes are represented by the encoded
object. -/
def onebot_to_sakoya (message_data : JVal) : Except PyErr JVal := do
  let params ← pyDictGetD message_data "params" (.obj .nil)
  let message_type ← pyDictGetD params "message_type" (.str "")
  let message_list ← pyDictGetD params "message" (.arr .nil)
  let (target_type, targetIdJ) ←
    if message_type = JVal.str "group" then do
      let g ← pyDictGetD params "group_id" (.str "")
      pure ("group", g)
    else do
      let u ← pyDictGetD params "user_id" (.str "")
      pure ("direct", u)
  let items ← pyIterJ message_list
  let content ← o2sSegs items
  let selfIdJ ← pyDictGetD message_data "self_id" (.str "")
  return .obj (.ofList
    [("bot_id", .str "Bot"), ("bot_self_id", .str (pyStr selfIdJ)), ("msg_id", .str ""),
     ("target_type", .str target_type), ("target_id", .str (pyStr targetIdJ)),
     ("content", .arr (JList.ofList (content.map msgToJ)))])

/-! ## msgspec decoding (`msgspec.json.decode(..., type=...)`)

msgspec validates the declared field types strictly (no coercions) but, with
the default struct configuration used here, ignores unknown fields. -/

/-- Decode a `str` field with a default. -/
def decodeStrFieldD (fs : JFields) (k : String) (d : String) : Option String :=
  match fs.lookup k with
  | none => some d
  | some (.str s) => some s
  | some _ => none

/-- Decode an `Optional[str]` field defaulting to `None`. -/
def decodeOptStrField (fs : JFields) (k : String) : Option (Option String) :=
  match fs.lookup k with
  | none => some none
  | some .null => some none
  | some (.str s) => some (some s)
  | some _ => none

/-- Decode one `Message` (`type: Optional[str]`, `data: Optional[Any]`). -/
def decodeMsgItem : JVal → Option SMsg
  | .obj fs => do
    let t ← decodeOptStrField fs "type"
    some ⟨t, (fs.lookup "data").getD .null⟩
  | _ => none

def decodeMsgList : List JVal → Option (List SMsg) :=
  List.mapM decodeMsgItem

/-- `msgspec.json.decode(frame, type=MessageSend)`: unknown fields (such as
`user_type`, `sender`, `user_pm` of a `MessageReceive` frame) are ignored;
the known fields must satisfy their declared types. -/
def decodeMessageSendJ : JVal → Option MessageSend
  | .obj fs => do
    let bot_id ← decodeStrFieldD fs "bot_id" "Bot"
    let bot_self_id ← decodeStrFieldD fs "bot_self_id" ""
    let msg_id ← decodeStrFieldD fs "msg_id" ""
    let target_type ← decodeOptStrField fs "target_type"
    let target_id ← decodeOptStrField fs "target_id"
    let content ← (match fs.lookup "content" with
      | none => some none
      | some .null => some none
      | some (.arr xs) => (decodeMsgList xs.toList).map some
      | some _ => none)
    some ⟨bot_id, bot_self_id, msg_id, target_type, target_id, content⟩
  | _ => none

/-- `msgspec.json.decode(frame, type=MessageReceive)` (used to interpret the
bytes produced by `onebot_event_to_sakoya` in the round-trip claim). -/
def decodeMessageReceiveJ : JVal → Option MessageReceiveD
  | .obj fs => do
    let bot_id ← decodeStrFieldD fs "bot_id" "Bot"
    let bot_self_id ← decodeStrFieldD fs "bot_self_id" ""
    let msg_id ← decodeStrFieldD fs "msg_id" ""
    let user_type ← (match fs.lookup "user_type" with
      | none => some "group"
      | some (.str s) =>
        if s = "group" ∨ s = "direct" ∨ s = "channel" ∨ s = "sub_channel" then some s else none
      | some _ => none)
    let group_id ← decodeOptStrField fs "group_id"
    let user_id ← decodeOptStrField fs "user_id"
    let sender ← (match fs.lookup "sender" with
      | none => some (JVal.obj .nil)
      | some (.obj sfs) => some (JVal.obj sfs)
      | some _ => none)
    let user_pm ← (match fs.lookup "user_pm" with
      | none => some (3 : Int)
      | some (.num n) => some n
      | some _ => none)
    let content ← (match fs.lookup "content" with
      | none => some ([] : List SMsg)
      | some (.arr xs) => decodeMsgList xs.toList
      | some _ => none)
    some { bot_id := .str bot_id, bot_self_id := .str bot_self_id, msg_id := .str msg_id,
           user_type := .str user_type, group_id := optStrJ group_id,
           user_id := optStrJ user_id, sender := sender, user_pm := .num user_pm,
           content := .objs (content.map CItem.msg) }
  | _ => none

/-! ## The Sakoya WebSocket adapter (`app/server/sakoya_adapter.py`) -/

/-- A WebSocket text frame: its JSON parse tree when it is valid JSON, the
raw text otherwise. -/
inductive RawFrame where
  | jsonF (v : JVal)
  | textF (s : String)
deriving DecidableEq

/-- Names of the fields `MessageReceive` accepts as keyword arguments;
`MessageReceive(**data)` raises `TypeError` on any other key. -/
def receiveFieldNames : List String :=
  ["bot_id", "bot_self_id", "msg_id", "user_type", "group_id", "user_id",
   "sender", "user_pm", "content"]

/-- The `content` attribute resulting from `MessageReceive(**data)` on raw
JSON: list elements are raw values (not `Message` objects). -/
def contentOfRaw : JVal → ContentVal
  | .arr xs => .objs (xs.toList.map CItem.raw)
  | v => .nonList v

/-- `MessageReceive(**message_data)`: keyword construction without type
validation; unknown keys raise `TypeError`. -/
def constructMessageReceive (fs : JFields) : Except PyErr MessageReceiveD :=
  if fs.toList.all (fun p => receiveFieldNames.contains p.1) then
    .ok { bot_id := (fs.lookup "bot_id").getD (.str "Bot"),
          bot_self_id := (fs.lookup "bot_self_id").getD (.str ""),
          msg_id := (fs.lookup "msg_id").getD (.str ""),
          user_type := (fs.lookup "user_type").getD (.str "group"),
          group_id := (fs.lookup "group_id").getD .null,
          user_id := (fs.lookup "user_id").getD .null,
          sender := (fs.lookup "sender").getD (.obj .nil),
          user_pm := (fs.lookup "user_pm").getD (.num 3),
          content := contentOfRaw ((fs.lookup "content").getD (.arr .nil)) }
  else
    .error .typeError

/-- Result of `SakoyaWebSocketAdapter.recv` on one frame. -/
inductive RecvOut where
  | apiCall (v : JVal)
  | event (v : JVal)
  | raw (f : RawFrame)
  | exn (e : PyErr)
deriving DecidableEq

/-- `SakoyaWebSocketAdapter.recv` (sakoya_adapter.py lines 272-321): first a
strict msgspec decode as `MessageSend` (converted to a OneBot API call);
only on a msgspec `DecodeError` a generic JSON parse followed by the
`bot_id`/`content` shape check (converted via `MessageReceive(**data)` and
`sakoya_to_onebot`); frames that are not JSON are returned untouched.
`echo` stands for the `uuid4().hex` the send conversion draws. -/
def recvModel (f : RawFrame) (echo : String) : RecvOut :=
  match f with
  | .textF s => .raw (.textF s)
  | .jsonF v =>
    match decodeMessageSendJ v with
    | some ms =>
      match sakoya_send_to_onebot_api ms echo with
      | .ok api => .apiCall api
      | .error e => .exn e
    | none =>
      match v with
      | .obj fs =>
        if fs.hasKey "bot_id" ∧ fs.hasKey "content" then
          match constructMessageReceive fs with
          | .ok mr =>
            match sakoya_to_onebot mr with
            | .ok ev => .event ev
            | .error e => .exn e
          | .error e => .exn e
        else
          .raw (.jsonF v)
      | _ =>
        match pyInB "bot_id" v, pyInB "content" v with
        | .ok b1, .ok b2 =>
          if b1 ∧ b2 then .exn .typeError else .raw (.jsonF v)
        | _, _ => .exn .typeError

/-- `SakoyaWebSocketAdapter.PASSTHROUGH_ACTIONS` (sakoya_adapter.py lines
21-27). -/
def passthroughActions : List String :=
  ["get_login_info", "get_status", "get_version_info", "lifecycle", "_connect"]

/-- Effect of one `SakoyaWebSocketAdapter.send` call. -/
inductive SendEff where
  | sentRawText (s : String)
  | sentJson (v : JVal)
  | sentSakoyaReceive (v : JVal)
  | sentSakoyaSend (v : JVal)
  | dropped
deriving DecidableEq

/-- First-match lookup in an insertion-ordered dict modelled as an
association list (the reply cache and the echo cache). -/
def cacheLookup {α : Type} : List (String × α) → String → Option α
  | [], _ => none
  | (k, v) :: tl, key => if k = key then some v else cacheLookup tl key

/-- Dict assignment on an association list: replace in place, else append. -/
def cacheUpsert {α : Type} : List (String × α) → String → α → List (String × α)
  | [], key, v => [(key, v)]
  | (k, w) :: tl, key, v =>
    if k = key then (k, v) :: tl else (k, w) :: cacheUpsert tl key v

/-- `del d[k]` / `d.pop(k)` on an association list. -/
def alistErase {α : Type} (l : List (String × α)) (k : String) : List (String × α) :=
  l.filter (fun p => p.1 ≠ k)

/-- Is a segment value a dict with `type == "reply"`? -/
def isReplySeg : JVal → Bool
  | .obj sfs => (sfs.lookup "type").getD .null = JVal.str "reply"
  | _ => false

/-- The first reply id found in a segment list (sakoya_adapter.py lines
101-105); `seg.get("data", {}).get("id", "")` raises when the `data` value
is not a dict. -/
def findReplyId : List JVal → Except PyErr (Option String)
  | [] => .ok none
  | seg :: rest =>
    match seg with
    | .obj sfs =>
      if (sfs.lookup "type").getD .null = JVal.str "reply" then do
        let d := (sfs.lookup "data").getD (.obj .nil)
        let i ← pyDictGetD d "id" (.str "")
        .ok (some (pyStr i))
      else
        findReplyId rest
    | _ => findReplyId rest

/-- Images collected from the quoted message's cached segments
(sakoya_adapter.py lines 119-139): a URL-bearing image is rebuilt as a pure
URL segment, an image without URL is kept as is. -/
def collectReplyImages : List JVal → Except PyErr (List JVal)
  | [] => .ok []
  | seg :: rest => do
    let here ← (match seg with
      | .obj sfs =>
        if (sfs.lookup "type").getD .null = JVal.str "image" then do
          let sd := (sfs.lookup "data").getD (.obj .nil)
          let u ← pyDictGetD sd "url" (.str "")
          if pyTruthy u then
            .ok [JVal.obj (.ofList
              [("type", .str "image"), ("data", .obj (.ofList [("url", u)]))])]
          else
            .ok [seg]
        else
          .ok []
      | _ => .ok [])
    let more ← collectReplyImages rest
    return here ++ more

/-- The enrichment steps of `_process_reply_message` after the current
message has been cached (sakoya_adapter.py lines 100-153). -/
def enrichCore (cache : List (String × JVal)) (fs : JFields) (msgsV : JVal) :
    Except PyErr JFields := do
  let msgs ← pyIterJ msgsV
  let replyId ← findReplyId msgs
  match replyId with
  | none => .ok fs
  | some rid =>
    if rid = "" then .ok fs
    else
      match cacheLookup cache rid with
      | none => .ok fs
      | some cached => do
        let cachedList ← pyIterJ cached
        let imgs ← collectReplyImages cachedList
        if imgs = [] then .ok fs
        else
          let newMessage := msgs.filter (fun seg => ¬ isReplySeg seg)
          .ok (fs.upsert "message" (.arr (JList.ofList (imgs ++ newMessage))))

/-- `SakoyaWebSocketAdapter._process_reply_message` (sakoya_adapter.py lines
79-158): caches the current message under its id (evicting the oldest entry
past 100), then rewrites the event's `message` with the quoted message's
images prepended and the reply segment removed; any exception is swallowed
by the internal `try`, leaving the event unchanged (the cache write
persists). -/
def processReplyMessage (cache : List (String × JVal)) (fs : JFields) :
    JFields × List (String × JVal) :=
  let mid := pyStr ((fs.lookup "message_id").getD (.str ""))
  let msgsV := (fs.lookup "message").getD (.arr .nil)
  let cache1 :=
    if mid ≠ "" then
      let c := cacheUpsert cache mid msgsV
      if c.length > 100 then c.drop 1 else c
    else
      cache
  match enrichCore cache1 fs msgsV with
  | .ok fs' => (fs', cache1)
  | .error _ => (fs, cache1)

/-- `SakoyaWebSocketAdapter.send` (sakoya_adapter.py lines 170-270): frames
carrying `echo`, `retcode` or `status` keys pass through untranslated; plain
`meta_event`s are dropped; message events are enriched and translated to
`MessageReceive` bytes; pass-through actions and non-send APIs pass through;
send APIs are translated to `MessageSend` bytes.  Any exception falls into
the recovery handler that sends the original frame. -/
def adapterSend (bot_id : String) (cache : List (String × JVal)) (f : RawFrame) :
    SendEff × List (String × JVal) :=
  match f with
  | .textF s => (.sentRawText s, cache)
  | .jsonF v =>
    match pyInB "echo" v, pyInB "retcode" v, pyInB "status" v with
    | .ok he, .ok hr, .ok hs =>
      if he || hr || hs then
        (.sentJson v, cache)
      else
        match v with
        | .obj fs =>
          let post_type := (fs.lookup "post_type").getD (.str "")
          if post_type = JVal.str "meta_event" then
            (.dropped, cache)
          else if post_type = JVal.str "message" then
            let (fs', cache') := processReplyMessage cache fs
            match onebot_event_to_sakoya (.obj fs') bot_id with
            | .ok (some b) => (.sentSakoyaReceive b, cache')
            | .ok none => (.sentJson (.obj fs'), cache')
            | .error _ => (.sentJson v, cache')
          else
            let action := (fs.lookup "action").getD (.str "")
            match action with
            | .str a =>
              if a ∈ passthroughActions then
                (.sentJson v, cache)
              else if strContainsSub a "send" && strContainsSub a "_msg" then
                match onebot_to_sakoya v with
                | .ok b => (.sentSakoyaSend b, cache)
                | .error _ => (.sentJson v, cache)
              else
                (.sentJson v, cache)
            | a =>
              match pyInB "send" a, pyInB "_msg" a with
              | .ok b1, .ok b2 =>
                if b1 && b2 then
                  match onebot_to_sakoya v with
                  | .ok b => (.sentSakoyaSend b, cache)
                  | .error _ => (.sentJson v, cache)
                else
                  (.sentJson v, cache)
              | _, _ => (.sentJson v, cache)
        | _ => (.sentJson v, cache)
    | _, _, _ => (.sentJson v, cache)

/-! ## The proxy connection (`app/server/proxy_server.py`) -/

/-- Persistence direction of `SaveMessage`. -/
inductive MsgDir where
  | RECV
  | SEND
deriving DecidableEq

/-- One echo cache entry (proxy_server.py lines 836-841). -/
structure EchoInfo where
  data : JVal
  create_timestamp : Int
  target_index : Nat
  original_echo : String
deriving DecidableEq

/-- The echo cache, an insertion-ordered dict keyed by
`f"{target_index}_{echo}"`. -/
def EchoCache := List (String × EchoInfo)

/-- `f"{target_index}_{echo}"`. -/
def echoKey (t : Nat) (e : String) : String :=
  toString t ++ "_" ++ e

/-- `ProxyConnection._construct_echo_info` (proxy_server.py lines 828-856):
note `echo = str(message_data.get("echo"))`, so a frame without an `echo`
field yields the string `"None"`, which is truthy and is cached.  Returns
the computed echo string (`none` models the `return None` taken only when
the string is empty) and the updated cache; when the cache size after
insertion is a multiple of 100, entries older than 120 seconds are
purged. -/
def construct_echo_info (now : Int) (cache : EchoCache) (fs : JFields) (t : Nat) :
    Option String × EchoCache :=
  let echo := pyStr ((fs.lookup "echo").getD .null)
  if echo = "" then (none, cache)
  else
    let key := echoKey t echo
    let info : EchoInfo := ⟨.obj fs, now, t, echo⟩
    let c1 := cacheUpsert cache key info
    let c2 :=
      if c1.length % 100 = 0 then
        c1.filter (fun p => ¬ (now - p.2.create_timestamp > 120))
      else
        c1
    (some echo, c2)

/-- One segment's contribution to `raw_message`.  Modelled from the spec:
`MessageSegmentParser.message2raw_message` lives in
`app/onebotv11/message_segment.py`, which is not among the provided sources;
spec §4.A says text is inlined and non-text segments render as bracketed
placeholders (`[图片]`, `[文件]`, …). -/
def segRawPiece : JVal → String
  | .obj sfs =>
    match (sfs.lookup "type").getD .null with
    | .str "text" =>
      (match (sfs.lookup "data").getD (.obj .nil) with
       | .obj d => pyStr ((d.lookup "text").getD (.str ""))
       | _ => "")
    | .str "image" => "[图片]"
    | .str "file" => "[文件]"
    | .str "record" => "[语音]"
    | .str t => "[" ++ t ++ "]"
    | _ => "[未知]"
  | _ => ""

/-- Modelled from the spec: the `raw_message` rendering of a segment list
(spec §4.A), used by `_construct_data_as_msg`. -/
def message2raw_message (msgs : JVal) : String :=
  match msgs with
  | .arr l => String.join (l.toList.map segRawPiece)
  | _ => ""

/-- `ProxyConnection._construct_data_as_msg` (proxy_server.py lines
898-913): turns a send API call into a `message_sent` pseudo-event;
`'send' not in message_data.get('action')` raises `TypeError` when the
action is missing (`None`). -/
def construct_data_as_msg (selfId : JVal) (kwargs : List (String × JVal))
    (fs : JFields) : Except PyErr JVal := do
  let action := (fs.lookup "action").getD .null
  let hasSend ← pyInB "send" action
  if ¬ hasSend then
    return .obj .nil
  let params := (fs.lookup "params").getD (.obj .nil)
  let pfs ← asObjE params
  let p1 := pfs.upsert "self_id" selfId
  let p2 :=
    if p1.hasKey "sender" then p1
    else p1.upsert "sender" (.obj (.ofList
      [("user_id", selfId), ("nickname", .str "BS Bot Send")]))
  let p3 := p2.upsert "post_type" (.str "message_sent")
  let rm := message2raw_message ((p3.lookup "message").getD (.arr .nil))
  let p4 := p3.upsert "raw_message" (.str rm)
  let p5 := kwargs.foldl (fun acc kv => acc.upsert kv.1 kv.2) p4
  return .obj p5

/-- Modelled from the spec: the envelope classification produced by the
external `MessageProcessor` (`app/onebotv11/models.py` is not among the
provided sources).  Spec §3: an API response carries `status`, `retcode`,
`data`, `echo`; all other parses are opaque here. -/
inductive EventP where
  | apiResponse (status retcode data echo : JVal)
  | plain (v : JVal)

/-- The external collaborators of a `ProxyConnection`, deliberately out of
scope for the core (spec §1): the command-hook preprocessor, the
`MessageProcessor` pre/post processing, and the synchronous command
handler. -/
structure Hooks where
  preprocesser : JVal → JVal
  preprocessMsg : JVal → Option JVal × Option EventP
  handleMessage : Option EventP → Option JVal
  postprocess : JVal → String → Option JVal

/-- `ProxyConnection._check_api_call_succ` (proxy_server.py lines 858-862). -/
def check_api_call_succ (pe : Option EventP) : Bool :=
  match pe with
  | some (.apiResponse s r _ _) => s = JVal.str "ok" && r = JVal.num 0
  | _ => false

/-- The `for idx in range(1, len(target_connections) + 1)` echo lookup
shared by `_log_api_call_fail`, `_construct_msg_from_echo` and the routing
code: the first index whose key is in the cache. -/
def findEchoAux (cache : EchoCache) (e : String) : List Nat → Option (Nat × EchoInfo)
  | [] => none
  | i :: rest =>
    match cacheLookup cache (echoKey i e) with
    | some info => some (i, info)
    | none => findEchoAux cache e rest

def findFirstEcho (cache : EchoCache) (n : Nat) (e : String) : Option (Nat × EchoInfo) :=
  findEchoAux cache e (List.range' 1 n)

/-- The routing lookup of `_process_client_message` (proxy_server.py lines
696-701): the first matching key is popped from the cache. -/
def popFirstEcho (cache : EchoCache) (n : Nat) (e : String) :
    Option (Nat × EchoInfo) × EchoCache :=
  match findFirstEcho cache n e with
  | some (i, info) => (some (i, info), alistErase cache (echoKey i e))
  | none => (none, cache)

/-- `ProxyConnection._log_api_call_fail` (proxy_server.py lines 864-881):
for a failed API response whose echo is found in the cache, the originating
call is logged with its data truncated to 200 characters.  The model
records the logged data portion. -/
def log_api_call_fail (cache : EchoCache) (n : Nat) (pe : Option EventP) : List String :=
  match pe with
  | some (.apiResponse s r _ e) =>
    if s ≠ JVal.str "ok" ∨ r ≠ JVal.num 0 then
      match findFirstEcho cache n (pyStr e) with
      | some (_, info) =>
        let ds := pyStr info.data
        [if strLen ds > 200 then
           strTakeN ds 200 ++ "...[total length: " ++ toString (strLen ds) ++ "]"
         else ds]
      | none => []
    else []
  | _ => []

/-- `ProxyConnection._construct_msg_from_echo` (proxy_server.py lines
883-896). -/
def construct_msg_from_echo (cache : EchoCache) (n : Nat) (selfId : JVal)
    (echoV : JVal) (kwargs : List (String × JVal)) : Except PyErr JVal :=
  match findFirstEcho cache n (pyStr echoV) with
  | some (_, info) =>
    match info.data with
    | .obj dfs => construct_data_as_msg selfId kwargs dfs
    | _ => .error .attributeError
  | none => .ok (.obj .nil)

/-- The successful-API-response persistence step of
`_process_client_message` (proxy_server.py lines 669-674):
`message_data.get("data", {}).get("message_id")` then
`message_data["echo"]` (a `KeyError` when absent) feed
`_construct_msg_from_echo`. -/
def succSave (cache : EchoCache) (n : Nat) (selfId : JVal) (mdfs : JFields) :
    Except PyErr JVal := do
  let dataV := (mdfs.lookup "data").getD (.obj .nil)
  let mid ← (match dataV with
    | .obj dfs => .ok ((dfs.lookup "message_id").getD .null)
    | _ => .error .attributeError)
  let echoV ← (match mdfs.lookup "echo" with
    | some ev => .ok ev
    | none => .error .keyError)
  construct_msg_from_echo cache n selfId echoV [("message_id", mid)]

/-- Effects of processing one target-side frame. -/
structure TOut where
  cache : EchoCache
  saves : List (JVal × MsgDir)
  clientSends : List JVal

/-- The tail of `_process_target_message`: post-processing hook, then the
frame (possibly rewritten) is written to the client socket. -/
def finishTarget (h : Hooks) (v selfId : JVal) (cache : EchoCache)
    (saves : List (JVal × MsgDir)) : TOut :=
  match h.postprocess v (pyStr selfId) with
  | some pm => if pyTruthy pm then ⟨cache, saves, [pm]⟩ else ⟨cache, saves, []⟩
  | none => ⟨cache, saves, []⟩

/-- `ProxyConnection._process_target_message` (proxy_server.py lines
763-813): record the frame's echo; only when `_construct_echo_info`
returned `None` (echo string empty) is a `message_sent` pseudo-event built
and persisted with direction `SEND`; then the post-processing hook runs and
the result is sent to the client.  Exceptions abort the remaining steps. -/
def process_target_message (h : Hooks) (now : Int) (selfId : JVal)
    (cache : EchoCache) (frame : RawFrame) (t : Nat) : TOut :=
  match frame with
  | .textF _ => ⟨cache, [], []⟩
  | .jsonF v =>
    match v with
    | .obj fs =>
      let (echoOpt, cache') := construct_echo_info now cache fs t
      match echoOpt with
      | some _ => finishTarget h v selfId cache' []
      | none =>
        match construct_data_as_msg selfId [] fs with
        | .ok msg => finishTarget h v selfId cache' [(msg, .SEND)]
        | .error _ => ⟨cache', [], []⟩
    | _ => ⟨cache, [], []⟩

/-- A target endpoint configuration entry: a bare URL string or an object
with optional `sakoya_protocol` and `disabled` flags. -/
inductive Endpoint where
  | url (u : String)
  | cfgObj (u : String) (sakoya : Bool) (disabled : Bool)
deriving DecidableEq

def Endpoint.isDisabled : Endpoint → Bool
  | .url _ => false
  | .cfgObj _ _ d => d

def Endpoint.isSakoya : Endpoint → Bool
  | .url _ => false
  | .cfgObj _ s _ => s

/-- The `ProxyConnection` state the modelled operations read and write:
the config snapshot, which slots hold a live connection, the
`target_sakoya_flags` list, the echo cache, and `self_id`. -/
structure ConnState where
  config : List Endpoint
  targets : List Bool
  sakoyaFlags : List Bool
  cache : EchoCache
  selfId : JVal

/-- The event fan-out loop of `_process_client_message` (proxy_server.py
lines 727-754): skips empty and disabled slots, and skips Sakoya slots
(per `target_sakoya_flags`) when the frame is a pass-through action or a
`meta_event`.  Returns the 1-based indices sent to. -/
def fanoutAux (config : List Endpoint) (flags : List Bool) (skip : Bool) :
    List Bool → Nat → List Nat
  | [], _ => []
  | present :: rest, li =>
    let tail := fanoutAux config flags skip rest (li + 1)
    if present then
      let disabled :=
        match config[li]? with
        | some ep => ep.isDisabled
        | none => false
      if disabled then tail
      else
        let isSak := flags.getD li false
        if isSak && skip then tail else (li + 1) :: tail
    else tail

def fanout (config : List Endpoint) (flags : List Bool) (skip : Bool)
    (targets : List Bool) : List Nat :=
  fanoutAux config flags skip targets 0

/-- Effects of processing one client-side frame. -/
structure COut where
  selfId : JVal
  cache : EchoCache
  saves : List (JVal × MsgDir)
  failLogs : List String
  targetSends : List (Nat × JVal)
  clientSends : List JVal

/-- The sends emitted for an echo routing hit (proxy_server.py lines
703-711): only when the recorded target index is positive and the slot
holds a connection (an out-of-range index raises and nothing is sent). -/
def echoRouteSends (targets : List Bool) (payload : JVal)
    (hit : Option (Nat × EchoInfo)) : List (Nat × JVal) :=
  match hit with
  | some (_, info) =>
    let mt := info.target_index
    if mt > 0 then
      match targets[mt - 1]? with
      | some present => if present then [(mt, payload)] else []
      | none => []
    else []
  | none => []

/-- The forwarding decision of `_process_client_message` (proxy_server.py
lines 690-754): an echo-bearing frame is routed to the target found by the
cache lookup, popping the entry; an event fans out to all enabled targets
with Sakoya suppression. -/
def routeCore (st : ConnState) (mdfs : JFields) (payload : JVal)
    (cache1 : EchoCache) : List (Nat × JVal) × EchoCache :=
  let echoV := (mdfs.lookup "echo").getD .null
  if pyTruthy echoV then
    let pr := popFirstEcho cache1 st.targets.length (pyStr echoV)
    (echoRouteSends st.targets payload pr.1, pr.2)
  else
    let action := (mdfs.lookup "action").getD (.str "")
    let post_type := (mdfs.lookup "post_type").getD (.str "")
    let skip :=
      action = JVal.str "lifecycle" ∨ action = JVal.str "_connect" ∨
      action = JVal.str "get_login_info" ∨ action = JVal.str "get_status" ∨
      action = JVal.str "get_version_info" ∨ post_type = JVal.str "meta_event"
    ((fanout st.config st.sakoyaFlags skip st.targets).map (fun i => (i, payload)), cache1)

/-- The forwarding phase wrapper: `message_data.get("echo")` on a non-dict
raises, aborting with the effects accumulated so far. -/
def routePhase (st : ConnState) (selfId' : JVal) (md : JVal)
    (payload : JVal) (cache1 : EchoCache) (saves : List (JVal × MsgDir))
    (logs : List String) (clientSends : List JVal) : COut :=
  match asObjE md with
  | .error _ => ⟨selfId', cache1, saves, logs, [], clientSends⟩
  | .ok mdfs =>
    let r := routeCore st mdfs payload cache1
    ⟨selfId', r.2, saves, logs, r.1, clientSends⟩

/-- The command-handler phase of `_process_client_message` (proxy_server.py
lines 684-687): a synthesized response suppresses forwarding
(`processed_message = None`, so the forwarded JSON is `null`) and is piped
through `_process_target_message` with target index 0. -/
def afterPersist (h : Hooks) (now : Int) (st : ConnState) (selfId' : JVal)
    (md : JVal) (pe : Option EventP) (pmJ : JVal) (saves : List (JVal × MsgDir))
    (logs : List String) : COut :=
  match h.handleMessage pe with
  | some resp =>
    let tout := process_target_message h now selfId' st.cache (.jsonF resp) 0
    routePhase st selfId' md .null tout.cache (saves ++ tout.saves) logs tout.clientSends
  | none =>
    routePhase st selfId' md pmJ st.cache saves logs []

/-- `isinstance(parsed_event.data, dict)` on a successful API response. -/
def respDataIsDict (pe : Option EventP) : Bool :=
  match pe with
  | some (.apiResponse _ _ (.obj _) _) => true
  | _ => false

/-- The persistence phase of `_process_client_message` (proxy_server.py
lines 666-681): a successful API response with dict data is reconstructed
from the echo cache and saved as `SEND`; every other processed frame is
passed to `_log_api_call_fail` and saved as `RECV`. -/
def clientMain (h : Hooks) (now : Int) (st : ConnState) (selfId' : JVal)
    (md : JVal) (pe : Option EventP) (pmJ : JVal) : COut :=
  if check_api_call_succ pe then
    if respDataIsDict pe then
      match asObjE md with
      | .error _ => ⟨selfId', st.cache, [], [], [], []⟩
      | .ok mdfs =>
        match succSave st.cache st.targets.length selfId' mdfs with
        | .error _ => ⟨selfId', st.cache, [], [], [], []⟩
        | .ok saved => afterPersist h now st selfId' md pe pmJ [(saved, .SEND)] []
    else
      afterPersist h now st selfId' md pe pmJ [] []
  else
    let logs := log_api_call_fail st.cache st.targets.length pe
    afterPersist h now st selfId' md pe pmJ [(pmJ, .RECV)] logs

/-- The `self_id` observation of `_process_client_message` (proxy_server.py
lines 656-660): a truthy `self_id` in the frame replaces the session's. -/
def selfIdAfter (st : ConnState) (fs : JFields) : JVal :=
  let sidv := (fs.lookup "self_id").getD .null
  if pyTruthy sidv then sidv else st.selfId

/-- `ProxyConnection._process_client_message` (proxy_server.py lines
651-761): JSON parse, `self_id` observation, external preprocessing, the
persistence phase, the command handler, and forwarding.  A frame the
preprocessor nulls out (or an empty dict) produces no further effects. -/
def process_client_message (h : Hooks) (now : Int) (st : ConnState)
    (frame : RawFrame) : COut :=
  match frame with
  | .textF _ => ⟨st.selfId, st.cache, [], [], [], []⟩
  | .jsonF v =>
    match v with
    | .obj fs =>
      let selfId' := selfIdAfter st fs
      let md := h.preprocesser v
      let pr := h.preprocessMsg md
      let pmJ := pr.1.getD .null
      if pyTruthy pmJ then
        clientMain h now st selfId' md pr.2 pmJ
      else
        ⟨selfId', st.cache, [], [], [], []⟩
    | _ => ⟨st.selfId, st.cache, [], [], [], []⟩

/-- `target_sakoya_flags` as built by `ProxyConnection.__init__`
(proxy_server.py lines 237-239). -/
def initFlags (config : List Endpoint) : List Bool :=
  config.map Endpoint.isSakoya

/-- `_connect_to_targets` (proxy_server.py lines 411-468): disabled slots
get a `None` placeholder; other slots hold a connection exactly when the
dial succeeded (`dial` gives the outcome per slot).  The function never
touches `target_sakoya_flags`. -/
def connectTargets (config : List Endpoint) (dial : List Bool) : List Bool :=
  List.zipWith (fun ep d => !ep.isDisabled && d) config dial

/-- A freshly constructed `ProxyConnection` after its initial
`_connect_to_targets`. -/
def mkConnState (config : List Endpoint) (dial : List Bool) : ConnState :=
  ⟨config, connectTargets config dial, initFlags config, [], .null⟩

/-- `ProxyConnection.reload_targets` (proxy_server.py lines 957-1015):
closes and clears the target list, clears `target_sakoya_flags` (line 985),
rebuilds the reconnect locks, and re-dials via `_connect_to_targets` —
which never repopulates `target_sakoya_flags`, so the flag list stays
empty. -/
def reload_targets (st : ConnState) (newConfig : List Endpoint)
    (dial : List Bool) : ConnState :=
  ⟨newConfig, connectTargets newConfig dial, [], st.cache, st.selfId⟩

/-! ## Listener accept policies -/

/-- The client socket of a registered connection: `getattr(ws, 'state',
None)`, where state 1 is OPEN. -/
structure ClientSock where
  stateAttr : Option Int
deriving DecidableEq

/-- An entry of `active_connections`. -/
structure ConnEntry where
  clientWs : Option ClientSock
deriving DecidableEq

inductive AcceptOutcome where
  | rejected (code : Nat) (reason : String)
  | acceptedNew (evictedStale : Bool)
  | replacedOld
deriving DecidableEq

/-- The entry registered for a just-accepted client (its socket is OPEN). -/
def freshEntry : ConnEntry := ⟨some ⟨some 1⟩⟩

/-- `ProxyServer`'s `connection_handler` (proxy_server.py lines 102-125),
run under the per-connection lock: while an entry exists whose client
socket is OPEN, the new socket is closed with 1008 "Connection already
exists" and the registry is untouched; a dead entry is evicted and the new
client accepted. -/
def proxyServerAccept (conns : List (String × ConnEntry)) (cid : String) :
    AcceptOutcome × List (String × ConnEntry) :=
  match cacheLookup conns cid with
  | some entry =>
    let oldState := entry.clientWs.bind (·.stateAttr)
    let isOldAlive := entry.clientWs.isSome && oldState = some 1
    if isOldAlive then
      (.rejected 1008 "Connection already exists", conns)
    else
      (.acceptedNew true, cacheUpsert (alistErase conns cid) cid freshEntry)
  | none => (.acceptedNew false, cacheUpsert conns cid freshEntry)

/-- `UnifiedProxyServer._handle_client_connection` (unified_proxy_server.py
lines 234-260): when an entry exists it is stopped and replaced by the new
client unconditionally — there is no OPEN check and no 1008 close. -/
def unifiedProxyAccept (conns : List (String × ConnEntry)) (cid : String) :
    AcceptOutcome × List (String × ConnEntry) :=
  match cacheLookup conns cid with
  | some _ => (.replacedOld, cacheUpsert conns cid freshEntry)
  | none => (.acceptedNew false, cacheUpsert conns cid freshEntry)

/-! ## Derived specification vocabulary used by the theorems -/

/-- A concrete hook set for witnesses and counterexamples: identity
preprocessing, the given parse, no command interception, identity
post-processing. -/
def mkHooks (pe : Option EventP) : Hooks :=
  { preprocesser := id,
    preprocessMsg := fun v => (some v, pe),
    handleMessage := fun _ => none,
    postprocess := fun v _ => some v }

def exceptOk {ε α : Type} : Except ε α → Bool
  | .ok _ => true
  | .error _ => false

/-- The integer the converters' guarded `int()` idiom is specified to
produce: the value of an all-ASCII-digit string, 0 otherwise. -/
def idVal : Option String → Int
  | none => 0
  | some s => if s ≠ "" ∧ s.toList.all Char.isDigit then asciiDigitsToNat s.toList else 0

/-- All characters of the (optional) ID are ASCII. -/
def asciiOpt : Option String → Prop
  | none => True
  | some s => ∀ c ∈ s.toList, c.toNat < 128

instance : DecidablePred asciiOpt := by
  intro x
  cases x with
  | none => exact .isTrue trivial
  | some s => exact List.decidableBAll _ s.toList

/-- Read a field of an event object. -/
def eventField (v : JVal) (k : String) : Option JVal :=
  match v with
  | .obj fs => fs.lookup k
  | _ => none

/-! ### A well-formed message-event family for the round-trip claim -/

/-- OneBot message segments of the four kinds the round-trip claim names,
with string payloads (`img` carries the optional `url` and `file` data
fields). -/
inductive Seg where
  | text (s : String)
  | at (q : String)
  | img (u f : Option String)
  | rep (i : String)

/-- The OneBot JSON of a `Seg`. -/
def Seg.toJ : Seg → JVal
  | .text s => textSeg s
  | .at q => atSeg q
  | .img u f => .obj (.ofList [("type", .str "image"),
      ("data", .obj (.ofList
        ((match u with | some x => [("url", JVal.str x)] | none => []) ++
         (match f with | some x => [("file", JVal.str x)] | none => []))))])
  | .rep i => replySegJ i

/-- A OneBot message event over the `Seg` family: group or private, with
numeric `self_id`, `message_id`, `user_id` (and `group_id` when group). -/
def mkEvent (isGroup : Bool) (sid mid uid gid : Nat) (segs : List Seg) : JVal :=
  .obj (.ofList
    ([("post_type", JVal.str "message"),
      ("message_type", JVal.str (if isGroup then "group" else "private")),
      ("self_id", JVal.num sid), ("message_id", JVal.num mid),
      ("user_id", JVal.num uid)] ++
     (if isGroup then [("group_id", JVal.num gid)] else []) ++
     [("sender", JVal.obj .nil),
      ("message", JVal.arr (JList.ofList (segs.map Seg.toJ)))]))

/-- The image source the forward converter selects: `url` when truthy, else
`file`. -/
def fwdImgSrc (u f : Option String) : String :=
  if u.getD "" ≠ "" then u.getD "" else f.getD ""

/-- The Sakoya `Message` the forward converter produces for a `Seg`. -/
def Seg.fwdMsg : Seg → SMsg
  | .text s => ⟨some "text", .str s⟩
  | .at q => ⟨some "at", .str q⟩
  | .img u f => ⟨some "image", .str (fwdImgSrc u f)⟩
  | .rep i => ⟨some "reply", .str i⟩

/-- The OneBot segment surviving the round trip: text, at and reply survive
with their payloads; an image is dropped (the forward converter emits its
data as a bare string, which the backward converter only accepts as a
`{type, content}` dict). -/
def Seg.roundSeg : Seg → Option JVal
  | .text s => some (textSeg s)
  | .at q => some (atSeg q)
  | .img _ _ => none
  | .rep i => some (replySegJ i)

/-- The `raw_message` contribution of a round-tripped segment. -/
def Seg.roundRaw : Seg → String
  | .text s => s
  | .at q => "@" ++ q
  | .img _ _ => "[图片]"
  | .rep _ => "[回复]"

/-- The sender object the backward converter rebuilds from the forwarded
nickname/card. -/
def roundSender (uid : Nat) : JVal := .obj (.ofList
  [("user_id", .num uid), ("nickname", .str ""), ("card", .str ""),
   ("sex", .str "unknown"), ("age", .num 0), ("area", .str ""),
   ("level", .str ""), ("role", .str "member"), ("title", .str "")])

/-- The event produced by the full round trip on `mkEvent`. -/
def mkRoundEvent (isGroup : Bool) (sid mid uid gid : Nat) (segs : List Seg) : JVal :=
  if isGroup then
    .obj (.ofList
      [("post_type", .str "message"), ("message_type", .str "group"),
       ("sub_type", .str "normal"), ("message_id", .num mid), ("group_id", .num gid),
       ("user_id", .num uid),
       ("raw_message", .str (String.join (segs.map Seg.roundRaw))),
       ("message", .arr (JList.ofList (segs.filterMap Seg.roundSeg))), ("font", .num 0),
       ("sender", roundSender uid), ("time", .num 0), ("self_id", .num sid)])
  else
    .obj (.ofList
      [("post_type", .str "message"), ("message_type", .str "private"),
       ("sub_type", .str "friend"), ("message_id", .num mid),
       ("user_id", .num uid),
       ("raw_message", .str (String.join (segs.map Seg.roundRaw))),
       ("message", .arr (JList.ofList (segs.filterMap Seg.roundSeg))), ("font", .num 0),
       ("sender", roundSender uid), ("time", .num 0), ("self_id", .num sid)])

/-- The `MessageReceive` JSON the forward converter emits for `mkEvent`. -/
def mkReceiveJson (isGroup : Bool) (sid mid uid gid : Nat) (msgs : List SMsg) : JVal :=
  .obj (.ofList
    ([("bot_id", JVal.str "Bot"), ("bot_self_id", JVal.str (Nat.repr sid)),
      ("msg_id", JVal.str (Nat.repr mid)),
      ("user_type", JVal.str (if isGroup then "group" else "direct")),
      ("user_id", JVal.str (Nat.repr uid)),
      ("sender", JVal.obj (.ofList [("nickname", JVal.str ""), ("card", JVal.str "")])),
      ("user_pm", JVal.num 3),
      ("content", JVal.arr (JList.ofList (msgs.map msgToJ)))] ++
     (if isGroup then [("group_id", JVal.str (Nat.repr gid))] else [])))

/-- The decoded `MessageReceive` for `mkReceiveJson`. -/
def mkReceiveD (isGroup : Bool) (sid mid uid gid : Nat) (msgs : List SMsg) :
    MessageReceiveD :=
  { bot_id := .str "Bot", bot_self_id := .str (Nat.repr sid),
    msg_id := .str (Nat.repr mid),
    user_type := .str (if isGroup then "group" else "direct"),
    group_id := if isGroup then .str (Nat.repr gid) else .null,
    user_id := .str (Nat.repr uid),
    sender := .obj (.ofList [("nickname", .str ""), ("card", .str "")]),
    user_pm := .num 3, content := .objs (msgs.map CItem.msg) }

/-- The OneBot → Sakoya → OneBot round trip of spec §8 on message events:
forward-translate, decode the produced `MessageReceive` JSON as the
official adapters do, translate back. -/
def onebotSakoyaRoundTrip (e : JVal) : Except PyErr (Option JVal) := do
  let r ← onebot_event_to_sakoya e "Bot"
  match r with
  | none => return none
  | some j =>
    match decodeMessageReceiveJ j with
    | some mr => do
      let ev ← sakoya_to_onebot mr
      return some ev
    | none => return none

/-! ### Concrete inputs used by counterexamples and witnesses -/

/-- A failed API response frame from the client. -/
def failedRespFrame : JVal :=
  .obj (.ofList [("status", .str "failed"), ("retcode", .num 1), ("echo", .str "a1")])

/-- A connection state with one plain target and the call that produced
echo `a1` recorded in the cache. -/
def oneTargetState : ConnState :=
  { config := [.url "ws://127.0.0.1:2536/OneBotv11"], targets := [true],
    sakoyaFlags := [false],
    cache := [(echoKey 1 "a1", ⟨.obj (.ofList [("action", .str "send_group_msg")]), 0, 1, "a1"⟩)],
    selfId := .null }

/-- A send-style API call frame from a target that carries no `echo`
field. -/
def sendNoEchoFrame : JVal :=
  .obj (.ofList [("action", .str "send_group_msg"),
    ("params", .obj (.ofList [("message", .arr (.ofList [textSeg "hi"]))]))])

/-- A single-slot configuration whose target speaks the Sakoya protocol. -/
def sakoyaCfg : List Endpoint := [.cfgObj "ws://127.0.0.1:8765/ws/Bot" true false]

/-- A heartbeat meta-event frame. -/
def heartbeatFrame : JVal :=
  .obj (.ofList [("post_type", .str "meta_event"),
    ("meta_event_type", .str "heartbeat"), ("status", .obj .nil)])

/-- A lifecycle meta-event frame (no `echo`, `retcode` or `status` key). -/
def lifecycleMetaFrame : JVal :=
  .obj (.ofList [("post_type", .str "meta_event"),
    ("meta_event_type", .str "lifecycle"), ("sub_type", .str "connect")])

/-- A Sakoya `MessageReceive` frame as a target would send it. -/
def receiveShapedFrame : JVal :=
  .obj (.ofList
    [("bot_id", .str "Bot"), ("bot_self_id", .str "123"), ("msg_id", .str "1"),
     ("user_type", .str "group"), ("group_id", .str "1"), ("user_id", .str "2"),
     ("sender", .obj .nil), ("user_pm", .num 3),
     ("content", .arr (.ofList [.obj (.ofList [("type", .str "text"), ("data", .str "hi")])]))])

/-! ### Decimal representation round-trip

`pyStr` of an integer is `Int.repr`, i.e. `Nat.repr` on naturals; the
backward converters re-parse it with the guarded `int()` idiom.  The
following shows `Nat.repr` produces a non-empty all-digit string whose
parse is the original number. -/

/-- The decimal digit characters of `n`, most significant first. -/
def decChars (n : Nat) : List Char :=
  if n < 10 then [Nat.digitChar n]
  else decChars (n / 10) ++ [Nat.digitChar (n % 10)]
termination_by n
decreasing_by
  exact Nat.div_lt_self (by omega) (by omega)

theorem toDigitsCore_eq_decChars (f : Nat) :
    ∀ (n : Nat) (acc : List Char), n < f →
      Nat.toDigitsCore 10 f n acc = decChars n ++ acc := by
  induction f with
  | zero => intro n acc h; omega
  | succ f ih =>
    intro n acc h
    rw [decChars]
    by_cases h10 : n < 10
    · have hdiv : n / 10 = 0 := Nat.div_eq_of_lt h10
      have hmod : n % 10 = n := Nat.mod_eq_of_lt h10
      simp [Nat.toDigitsCore, hdiv, hmod, h10]
    · have hdiv : n / 10 ≠ 0 := by
        intro hc
        exact h10 (by omega)
      have hlt : n / 10 < f := by
        have h1 : n / 10 < n := Nat.div_lt_self (by omega) (by omega)
        omega
      simp only [Nat.toDigitsCore, hdiv, if_false, if_neg h10]
      rw [ih (n / 10) (Nat.digitChar (n % 10) :: acc) hlt]
      simp

theorem natRepr_eq_decChars (n : Nat) : Nat.repr n = String.mk (decChars n) := by
  have h := toDigitsCore_eq_decChars (n + 1) n [] (by omega)
  simp only [Nat.repr, Nat.toDigits, h, List.append_nil, List.asString]

theorem digitChar_isDigit {k : Nat} (h : k < 10) : (Nat.digitChar k).isDigit = true := by
  interval_cases k <;> decide

theorem digitChar_val {k : Nat} (h : k < 10) :
    (Nat.digitChar k).toNat - '0'.toNat = k := by
  interval_cases k <;> decide

theorem decChars_all_digit (n : Nat) : (decChars n).all Char.isDigit = true := by
  induction n using Nat.strong_induction_on with
  | _ n ih =>
    rw [decChars]
    by_cases h10 : n < 10
    · simp [h10, digitChar_isDigit h10]
    · have h1 : n / 10 < n := Nat.div_lt_self (by omega) (by omega)
      have h2 := ih (n / 10) h1
      simp [h10, List.all_append, h2, digitChar_isDigit (Nat.mod_lt n (by omega))]

theorem decChars_ne_nil (n : Nat) : decChars n ≠ [] := by
  rw [decChars]
  by_cases h10 : n < 10 <;> simp [h10]

theorem foldl_decChars (n : Nat) :
    ∀ a : Nat,
      List.foldl (fun acc c => acc * 10 + (c.toNat - '0'.toNat)) a (decChars n) =
        a * 10 ^ (decChars n).length + n := by
  induction n using Nat.strong_induction_on with
  | _ n ih =>
    intro a
    rw [decChars]
    by_cases h10 : n < 10
    · simp only [h10, if_true, List.foldl_cons, List.foldl_nil, List.length_cons,
        List.length_nil]
      rw [digitChar_val h10]
      have hp : (10 : Nat) ^ (0 + 1) = 10 := rfl
      omega
    · have h1 : n / 10 < n := Nat.div_lt_self (by omega) (by omega)
      have hmod : n % 10 < 10 := Nat.mod_lt n (by omega)
      simp only [h10, if_false, List.foldl_append, List.foldl_cons, List.foldl_nil,
        List.length_append, List.length_cons, List.length_nil]
      rw [ih (n / 10) h1 a, digitChar_val hmod]
      have hn : 10 * (n / 10) + n % 10 = n := Nat.div_add_mod n 10
      ring_nf
      omega

theorem asciiDigitsToNat_decChars (n : Nat) : asciiDigitsToNat (decChars n) = n := by
  unfold asciiDigitsToNat
  rw [foldl_decChars n 0]
  simp

theorem natRepr_toList (n : Nat) : (Nat.repr n).toList = decChars n := by
  rw [natRepr_eq_decChars]
  rfl

theorem natRepr_ne_empty (n : Nat) : Nat.repr n ≠ "" := by
  rw [natRepr_eq_decChars]
  intro h
  exact decChars_ne_nil n (congrArg String.toList h)

theorem char_isDigit_pyIsDigit {c : Char} (h : c.isDigit = true) :
    pyIsDigitChar c = true := by
  simp [pyIsDigitChar, h]

theorem pyStrIsDigit_natRepr (n : Nat) : pyStrIsDigit (Nat.repr n) = true := by
  unfold pyStrIsDigit
  rw [natRepr_toList]
  have h1 := decChars_all_digit n
  have h2 : (decChars n).all pyIsDigitChar = true := by
    simp only [List.all_eq_true] at h1 ⊢
    intro c hc
    exact char_isDigit_pyIsDigit (h1 c hc)
  simp [natRepr_ne_empty n, h2]

theorem pyIntOfString_natRepr (n : Nat) :
    pyIntOfString (Nat.repr n) = .ok (n : Int) := by
  unfold pyIntOfString
  rw [natRepr_toList]
  simp [natRepr_ne_empty n, decChars_all_digit n, asciiDigitsToNat_decChars n]

theorem pyStr_num_ofNat (m : Nat) : pyStr (.num (m : Int)) = Nat.repr m := rfl

theorem guardedPyInt_natRepr (m : Nat) :
    guardedPyInt (.str (Nat.repr m)) = .ok (m : Int) := by
  unfold guardedPyInt
  have ht : pyTruthy (.str (Nat.repr m)) = true := by
    simp [pyTruthy, natRepr_ne_empty m]
  have hs : pyStr (.str (Nat.repr m)) = Nat.repr m := rfl
  rw [hs, ht, pyStrIsDigit_natRepr m]
  simp [pyIntFn, pyIntOfString_natRepr m]

theorem all_pyIsDigit_ascii (l : List Char) (h : ∀ c ∈ l, c.toNat < 128) :
    l.all pyIsDigitChar = l.all Char.isDigit := by
  induction l with
  | nil => rfl
  | cons c cs ih =>
    have hc : c.toNat < 128 := h c (by simp)
    have hcs : ∀ x ∈ cs, x.toNat < 128 := fun x hx => h x (by simp [hx])
    have heq : pyIsDigitChar c = c.isDigit := by
      unfold pyIsDigitChar
      have h1 : c ≠ '¹' := by intro hc1; subst hc1; simp at hc
      have h2 : c ≠ '²' := by intro hc1; subst hc1; simp at hc
      have h3 : c ≠ '³' := by intro hc1; subst hc1; simp at hc
      simp [h1, h2, h3]
    simp [List.all_cons, heq, ih hcs]

/-- On an all-ASCII string, Python's `isdigit` coincides with the ASCII
digit test. -/
theorem pyStrIsDigit_ascii {s : String} (h : ∀ c ∈ s.toList, c.toNat < 128) :
    pyStrIsDigit s = (decide (s ≠ "") && s.toList.all Char.isDigit) := by
  unfold pyStrIsDigit
  rw [all_pyIsDigit_ascii s.toList h]

/-- The guarded `int()` on an all-ASCII string never raises and yields
`idVal`. -/
theorem guardedPyInt_str_ascii (s : String) (h : ∀ c ∈ s.toList, c.toNat < 128) :
    guardedPyInt (.str s) = .ok (idVal (some s)) := by
  unfold guardedPyInt
  have hs : pyStr (.str s) = s := rfl
  have ht : pyTruthy (.str s) = decide (s ≠ "") := rfl
  rw [hs, ht, pyStrIsDigit_ascii h]
  unfold idVal
  by_cases he : s = ""
  · subst he
    simp
  · by_cases hd : s.toList.all Char.isDigit = true
    · have hd' : ∀ c ∈ s.data, c.isDigit = true := List.all_eq_true.mp hd
      simp only [pyIntFn, pyIntOfString, he, hd]
      simp only [ne_eq, not_false_iff, Bool.and_self, if_true, decide_eq_true_eq]
      simp [he]
    · have hd' : ¬ ∀ c ∈ s.data, c.isDigit = true := fun hall =>
        hd (List.all_eq_true.mpr hall)
      simp [he, hd, hd']

/-- `optIdToInt (some s)` and `guardedPyInt (.str s)` compute the same
expression. -/
theorem optIdToInt_some_eq (s : String) :
    optIdToInt (some s) = guardedPyInt (.str s) := rfl

theorem optIdToInt_ascii {x : Option String} (h : asciiOpt x) :
    optIdToInt x = .ok (idVal x) := by
  cases x with
  | none => rfl
  | some s => rw [optIdToInt_some_eq, guardedPyInt_str_ascii s h]

theorem guardedPyInt_ascii {x : Option String} (h : asciiOpt x) :
    guardedPyInt (optStrJ x) = .ok (idVal x) := by
  cases x with
  | none => rfl
  | some s => exact guardedPyInt_str_ascii s h

/-! ### Association list facts -/

theorem cacheLookup_erase_self {α : Type} (l : List (String × α)) (k : String) :
    cacheLookup (alistErase l k) k = none := by
  induction l with
  | nil => rfl
  | cons p t ih =>
    unfold alistErase at ih ⊢
    by_cases hp : p.1 = k
    · simpa [List.filter, hp] using ih
    · simpa [List.filter, hp, cacheLookup, hp] using ih

theorem routePhase_saves (st : ConnState) (sid md p : JVal) (c : EchoCache)
    (s : List (JVal × MsgDir)) (l : List String) (cs : List JVal) :
    (routePhase st sid md p c s l cs).saves = s := by
  unfold routePhase
  cases asObjE md <;> rfl

theorem routePhase_failLogs (st : ConnState) (sid md p : JVal) (c : EchoCache)
    (s : List (JVal × MsgDir)) (l : List String) (cs : List JVal) :
    (routePhase st sid md p c s l cs).failLogs = l := by
  unfold routePhase
  cases asObjE md <;> rfl

theorem exceptOk_exists {ε α : Type} {e : Except ε α} (h : exceptOk e = true) :
    ∃ a, e = .ok a := by
  cases e with
  | ok a => exact ⟨a, rfl⟩
  | error _ => simp [exceptOk] at h

/-! ### Round-trip composition lemmas

`mkEvent` is translated forward to exactly `mkReceiveJson`, whose msgspec
decode is `mkReceiveD`, which translates back to exactly `mkRoundEvent`. -/

theorem jlist_toList_ofList (l : List JVal) : (JList.ofList l).toList = l := by
  induction l with
  | nil => rfl
  | cons x xs ih => simp [JList.ofList, JList.toList, ih]

theorem truthy_str_elim (s : String) :
    (if pyTruthy (.str s) then pyStr (.str s) else "") = s := by
  by_cases h : s = "" <;> simp [pyTruthy, pyStr, h]

/-- `fwdSeg1` on an image segment of the `Seg` family: the emitted Sakoya
message carries the `url` field when truthy, else the `file` field. -/
theorem fwdSeg1_img (u f : Option String) :
    fwdSeg1 (.str "image")
      (.obj (.ofList
        ((match u with | some x => [("url", JVal.str x)] | none => []) ++
         (match f with | some x => [("file", JVal.str x)] | none => [])))) =
      .ok [⟨some "image", .str (fwdImgSrc u f)⟩] := by
  cases u with
  | none =>
    cases f with
    | none => rfl
    | some y =>
      show (if strStartsWith y "base64://" then
              (Except.ok [(⟨some "image", JVal.str y⟩ : SMsg)] : Except PyErr (List SMsg))
            else if strStartsWith y "http" then .ok [⟨some "image", .str y⟩]
            else .ok [⟨some "image", .str y⟩]) = .ok [⟨some "image", .str y⟩]
      split_ifs <;> rfl
  | some x =>
    by_cases hx : x = ""
    · subst hx
      cases f with
      | none => rfl
      | some y =>
        show (if strStartsWith y "base64://" then
                (Except.ok [(⟨some "image", JVal.str y⟩ : SMsg)] : Except PyErr (List SMsg))
              else if strStartsWith y "http" then .ok [⟨some "image", .str y⟩]
              else .ok [⟨some "image", .str y⟩]) = .ok [⟨some "image", .str y⟩]
        split_ifs <;> rfl
    · have ht : pyTruthy (JVal.str x) = true := by simp [pyTruthy, hx]
      have hsrc : fwdImgSrc (some x) f = x := by simp [fwdImgSrc, hx]
      cases f with
      | none =>
        show Except.bind (asStrE (if pyTruthy (JVal.str x) then JVal.str x else JVal.str ""))
              (fun s =>
                if strStartsWith s "base64://" then
                  Except.ok [(⟨some "image",
                    if pyTruthy (JVal.str x) then JVal.str x else JVal.str ""⟩ : SMsg)]
                else if strStartsWith s "http" then
                  .ok [⟨some "image",
                    if pyTruthy (JVal.str x) then JVal.str x else JVal.str ""⟩]
                else if pyTruthy (JVal.str x) then .ok [⟨some "image", JVal.str x⟩]
                else .ok [⟨some "image",
                  if pyTruthy (JVal.str x) then JVal.str x else JVal.str ""⟩]) =
            .ok [⟨some "image", .str (fwdImgSrc (some x) none)⟩]
        rw [ht, hsrc]
        simp only [if_pos rfl]
        show (if strStartsWith x "base64://" then
                (Except.ok [(⟨some "image", JVal.str x⟩ : SMsg)] : Except PyErr (List SMsg))
              else if strStartsWith x "http" then .ok [⟨some "image", .str x⟩]
              else if true = true then .ok [⟨some "image", JVal.str x⟩]
              else .ok [⟨some "image", .str x⟩]) = .ok [⟨some "image", .str x⟩]
        split_ifs <;> rfl
      | some y =>
        show Except.bind (asStrE (if pyTruthy (JVal.str x) then JVal.str x else JVal.str y))
              (fun s =>
                if strStartsWith s "base64://" then
                  Except.ok [(⟨some "image",
                    if pyTruthy (JVal.str x) then JVal.str x else JVal.str y⟩ : SMsg)]
                else if strStartsWith s "http" then
                  .ok [⟨some "image",
                    if pyTruthy (JVal.str x) then JVal.str x else JVal.str y⟩]
                else if pyTruthy (JVal.str x) then .ok [⟨some "image", JVal.str x⟩]
                else .ok [⟨some "image",
                  if pyTruthy (JVal.str x) then JVal.str x else JVal.str y⟩]) =
            .ok [⟨some "image", .str (fwdImgSrc (some x) (some y))⟩]
        rw [ht, hsrc]
        simp only [if_pos rfl]
        show (if strStartsWith x "base64://" then
                (Except.ok [(⟨some "image", JVal.str x⟩ : SMsg)] : Except PyErr (List SMsg))
              else if strStartsWith x "http" then .ok [⟨some "image", .str x⟩]
              else if true = true then .ok [⟨some "image", JVal.str x⟩]
              else .ok [⟨some "image", .str x⟩]) = .ok [⟨some "image", .str x⟩]
        split_ifs <;> rfl

/-- One forward step over a `Seg`-family segment. -/
theorem fwdSegs_cons_seg (g : Seg) (L : List JVal) :
    fwdSegs (g.toJ :: L) =
      Except.bind (fwdSegs L) (fun more => Except.ok (g.fwdMsg :: more)) := by
  cases g
  next s => rfl
  next q => rfl
  next u f =>
    show Except.bind
        (fwdSeg1 (.str "image")
          (.obj (.ofList
            ((match u with | some x => [("url", JVal.str x)] | none => []) ++
             (match f with | some x => [("file", JVal.str x)] | none => [])))))
        (fun here => Except.bind (fwdSegs L) (fun more => Except.pure (here ++ more))) =
      Except.bind (fwdSegs L) (fun more => Except.ok ((Seg.img u f).fwdMsg :: more))
    rw [fwdSeg1_img]
    rfl
  next i => rfl

theorem fwdSegs_map_toJ (segs : List Seg) :
    fwdSegs (segs.map Seg.toJ) = .ok (segs.map Seg.fwdMsg) := by
  induction segs with
  | nil => rfl
  | cons g rest ih =>
    simp only [List.map_cons]
    rw [fwdSegs_cons_seg g, ih]
    rfl

theorem decodeMsgItem_msgToJ (m : SMsg) : decodeMsgItem (msgToJ m) = some m := by
  cases m with
  | mk t d => cases t <;> rfl

theorem decodeMsgList_map (msgs : List SMsg) :
    decodeMsgList (msgs.map msgToJ) = some msgs := by
  induction msgs with
  | nil => rfl
  | cons m rest ih =>
    have ih' : List.mapM decodeMsgItem (rest.map msgToJ) = some rest := ih
    unfold decodeMsgList
    simp only [List.map_cons, List.mapM_cons, decodeMsgItem_msgToJ, ih']
    rfl

theorem recvSegs_map_fwdMsg (segs : List Seg) :
    recvSegs ((segs.map Seg.fwdMsg).map CItem.msg) =
      .ok (segs.filterMap Seg.roundSeg, segs.map Seg.roundRaw) := by
  induction segs with
  | nil => rfl
  | cons g rest ih =>
    cases g
    next s =>
      show Except.bind (recvSegs ((rest.map Seg.fwdMsg).map CItem.msg))
          (fun p => Except.pure
            ([textSeg (if pyTruthy (JVal.str s) then pyStr (JVal.str s) else "")] ++ p.1,
             [if pyTruthy (JVal.str s) then pyStr (JVal.str s) else ""] ++ p.2)) = _
      rw [truthy_str_elim, ih]
      rfl
    next q =>
      show Except.bind (recvSegs ((rest.map Seg.fwdMsg).map CItem.msg))
          (fun p => Except.pure
            ([atSeg (if pyTruthy (JVal.str q) then pyStr (JVal.str q) else "")] ++ p.1,
             ["@" ++ (if pyTruthy (JVal.str q) then pyStr (JVal.str q) else "")] ++ p.2)) = _
      rw [truthy_str_elim, ih]
      rfl
    next u f =>
      show Except.bind (recvSegs ((rest.map Seg.fwdMsg).map CItem.msg))
          (fun p => Except.pure (([] : List JVal) ++ p.1, ["[图片]"] ++ p.2)) = _
      rw [ih]
      rfl
    next i =>
      show Except.bind (recvSegs ((rest.map Seg.fwdMsg).map CItem.msg))
          (fun p => Except.pure
            ([replySegJ (if pyTruthy (JVal.str i) then pyStr (JVal.str i) else "")] ++ p.1,
             ["[回复]"] ++ p.2)) = _
      rw [truthy_str_elim, ih]
      rfl

theorem onebot_event_to_sakoya_mkEvent (isGroup : Bool) (sid mid uid gid : Nat)
    (segs : List Seg) :
    onebot_event_to_sakoya (mkEvent isGroup sid mid uid gid segs) "Bot" =
      .ok (some (mkReceiveJson isGroup sid mid uid gid (segs.map Seg.fwdMsg))) := by
  cases isGroup with
  | false =>
    show Except.bind (fwdSegs ((JList.ofList (segs.map Seg.toJ)).toList))
        (fun content0 => Except.ok (some (JVal.obj (.ofList
          [("bot_id", .str "Bot"), ("bot_self_id", .str (Nat.repr sid)),
           ("msg_id", .str (Nat.repr mid)),
           ("user_type", .str "direct"),
           ("user_id", .str (Nat.repr uid)),
           ("sender", .obj (.ofList [("nickname", .str ""), ("card", .str "")])),
           ("user_pm", .num 3),
           ("content", .arr (JList.ofList (content0.map msgToJ)))])))) =
      Except.ok (some (mkReceiveJson false sid mid uid gid (segs.map Seg.fwdMsg)))
    rw [jlist_toList_ofList, fwdSegs_map_toJ]
    rfl
  | true =>
    show Except.bind (fwdSegs ((JList.ofList (segs.map Seg.toJ)).toList))
        (fun content0 => Except.ok (some (JVal.obj (.ofList
          [("bot_id", .str "Bot"), ("bot_self_id", .str (Nat.repr sid)),
           ("msg_id", .str (Nat.repr mid)),
           ("user_type", .str "group"),
           ("user_id", .str (Nat.repr uid)),
           ("sender", .obj (.ofList [("nickname", .str ""), ("card", .str "")])),
           ("user_pm", .num 3),
           ("content", .arr (JList.ofList (content0.map msgToJ))),
           ("group_id", .str (Nat.repr gid))])))) =
      Except.ok (some (mkReceiveJson true sid mid uid gid (segs.map Seg.fwdMsg)))
    rw [jlist_toList_ofList, fwdSegs_map_toJ]
    rfl

theorem decode_mkReceiveJson (isGroup : Bool) (sid mid uid gid : Nat)
    (msgs : List SMsg) :
    decodeMessageReceiveJ (mkReceiveJson isGroup sid mid uid gid msgs) =
      some (mkReceiveD isGroup sid mid uid gid msgs) := by
  cases isGroup with
  | false =>
    show Option.bind (decodeMsgList ((JList.ofList (msgs.map msgToJ)).toList))
        (fun content =>
          some { bot_id := .str "Bot", bot_self_id := .str (Nat.repr sid),
                 msg_id := .str (Nat.repr mid), user_type := .str "direct",
                 group_id := optStrJ none, user_id := optStrJ (some (Nat.repr uid)),
                 sender := .obj (.ofList [("nickname", .str ""), ("card", .str "")]),
                 user_pm := .num 3,
                 content := ContentVal.objs (content.map CItem.msg) }) =
      some (mkReceiveD false sid mid uid gid msgs)
    rw [jlist_toList_ofList, decodeMsgList_map]
    rfl
  | true =>
    show Option.bind (decodeMsgList ((JList.ofList (msgs.map msgToJ)).toList))
        (fun content =>
          some { bot_id := .str "Bot", bot_self_id := .str (Nat.repr sid),
                 msg_id := .str (Nat.repr mid), user_type := .str "group",
                 group_id := optStrJ (some (Nat.repr gid)),
                 user_id := optStrJ (some (Nat.repr uid)),
                 sender := .obj (.ofList [("nickname", .str ""), ("card", .str "")]),
                 user_pm := .num 3,
                 content := ContentVal.objs (content.map CItem.msg) }) =
      some (mkReceiveD true sid mid uid gid msgs)
    rw [jlist_toList_ofList, decodeMsgList_map]
    rfl

theorem sakoya_to_onebot_mkReceiveD (isGroup : Bool) (sid mid uid gid : Nat)
    (segs : List Seg) :
    sakoya_to_onebot (mkReceiveD isGroup sid mid uid gid (segs.map Seg.fwdMsg)) =
      .ok (mkRoundEvent isGroup sid mid uid gid segs) := by
  cases isGroup with
  | false =>
    show Except.bind (recvSegs ((segs.map Seg.fwdMsg).map CItem.msg))
        (fun p =>
          Except.bind (guardedPyInt (JVal.str (Nat.repr uid)))
            (fun uidI =>
              Except.bind (guardedPyInt (JVal.str (Nat.repr mid)))
                (fun midI =>
                  Except.bind (guardedPyInt (JVal.str (Nat.repr sid)))
                    (fun sidI =>
                      Except.ok (JVal.obj (.ofList
                        [("post_type", .str "message"),
                         ("message_type", .str "private"),
                         ("sub_type", .str "friend"), ("message_id", .num midI),
                         ("user_id", .num uidI),
                         ("raw_message", .str (String.join p.2)),
                         ("message", .arr (JList.ofList p.1)), ("font", .num 0),
                         ("sender", .obj (.ofList
                           [("user_id", .num uidI), ("nickname", .str ""),
                            ("card", .str ""), ("sex", .str "unknown"),
                            ("age", .num 0), ("area", .str ""), ("level", .str ""),
                            ("role", .str "member"), ("title", .str "")])),
                         ("time", .num 0), ("self_id", .num sidI)])))))) =
      Except.ok (mkRoundEvent false sid mid uid gid segs)
    simp only [recvSegs_map_fwdMsg, guardedPyInt_natRepr]
    rfl
  | true =>
    show Except.bind (recvSegs ((segs.map Seg.fwdMsg).map CItem.msg))
        (fun p =>
          Except.bind (guardedPyInt (JVal.str (Nat.repr uid)))
            (fun uidI =>
              Except.bind (guardedPyInt (JVal.str (Nat.repr mid)))
                (fun midI =>
                  Except.bind (guardedPyInt (JVal.str (Nat.repr sid)))
                    (fun sidI =>
                      Except.bind (guardedPyInt (JVal.str (Nat.repr gid)))
                        (fun gidI =>
                          Except.ok (JVal.obj (.ofList
                            [("post_type", .str "message"),
                             ("message_type", .str "group"),
                             ("sub_type", .str "normal"), ("message_id", .num midI),
                             ("group_id", .num gidI), ("user_id", .num uidI),
                             ("raw_message", .str (String.join p.2)),
                             ("message", .arr (JList.ofList p.1)), ("font", .num 0),
                             ("sender", .obj (.ofList
                               [("user_id", .num uidI), ("nickname", .str ""),
                                ("card", .str ""), ("sex", .str "unknown"),
                                ("age", .num 0), ("area", .str ""), ("level", .str ""),
                                ("role", .str "member"), ("title", .str "")])),
                             ("time", .num 0), ("self_id", .num sidI)]))))))) =
      Except.ok (mkRoundEvent true sid mid uid gid segs)
    simp only [recvSegs_map_fwdMsg, guardedPyInt_natRepr]
    rfl


/-! ## Claim theorems -/

/-- C4: the code disagrees with the claim — a target frame with no `echo`
field is treated as having echo `str(None) = "None"`: it is recorded in the
echo cache under `(1, "None")` and no `message_sent` pseudo-event is
persisted, despite the send-style action.  (The guard `if not echo` and the
call-site comment about frameworks that do not report echoes show the
persistence branch was intended for exactly this frame.) -/
theorem no_echo_send_frame_cached_not_persisted :
    (process_target_message (mkHooks none) 0 (.num 123) []
      (.jsonF sendNoEchoFrame) 1).saves = [] ∧
    (cacheLookup (process_target_message (mkHooks none) 0 (.num 123) []
      (.jsonF sendNoEchoFrame) 1).cache (echoKey 1 "None")).isSome = true :=
  ⟨rfl, rfl⟩

/-- C9: the code disagrees with the claim — `reload_targets` clears
`target_sakoya_flags` and `_connect_to_targets` never rebuilds it, so after
a reload the meta-event suppression check never fires: the same heartbeat
frame that is suppressed before the reload is forwarded to the Sakoya slot
after it. -/
theorem meta_event_forwarded_to_sakoya_after_reload :
    (process_client_message (mkHooks none) 0 (mkConnState sakoyaCfg [true])
      (.jsonF heartbeatFrame)).targetSends = [] ∧
    (process_client_message (mkHooks none) 0
      (reload_targets (mkConnState sakoyaCfg [true]) sakoyaCfg [true])
      (.jsonF heartbeatFrame)).targetSends = [(1, heartbeatFrame)] :=
  ⟨rfl, rfl⟩

/-- C2 counterexample: the unified path-routing listener does not close a
duplicate client with 1008 while the prior socket is OPEN — it stops and
replaces the existing connection. -/
theorem unified_listener_replaces_open_connection :
    (unifiedProxyAccept [("conn1", freshEntry)] "conn1").1 = .replacedOld ∧
    (unifiedProxyAccept [("conn1", freshEntry)] "conn1").1 ≠
      .rejected 1008 "Connection already exists" :=
  ⟨rfl, fun hc => nomatch hc⟩

/-- C2 (amended): the per-port listener (`proxy_server.connection_handler`)
implements the claimed policy — reject with 1008 and keep the registry
untouched while the prior socket is OPEN, evict and accept otherwise — but
the unified path-routing listener stops and replaces the existing
connection unconditionally. -/
theorem listener_duplicate_client_policy :
    (∀ (conns : List (String × ConnEntry)) (cid : String) (entry : ConnEntry)
       (sock : ClientSock), cacheLookup conns cid = some entry →
       entry.clientWs = some sock → sock.stateAttr = some 1 →
       proxyServerAccept conns cid =
         (.rejected 1008 "Connection already exists", conns)) ∧
    (∀ (conns : List (String × ConnEntry)) (cid : String) (entry : ConnEntry),
       cacheLookup conns cid = some entry →
       ¬ (entry.clientWs.isSome = true ∧
          entry.clientWs.bind (fun w => w.stateAttr) = some 1) →
       proxyServerAccept conns cid =
         (.acceptedNew true, cacheUpsert (alistErase conns cid) cid freshEntry)) ∧
    (∀ (conns : List (String × ConnEntry)) (cid : String) (entry : ConnEntry),
       cacheLookup conns cid = some entry →
       (unifiedProxyAccept conns cid).1 = .replacedOld) := by
  refine ⟨?_, ?_, ?_⟩
  · intro conns cid entry sock hl hw hs
    unfold proxyServerAccept
    rw [hl]
    have halive : (entry.clientWs.isSome &&
        decide (entry.clientWs.bind (fun w => w.stateAttr) = some 1)) = true := by
      rw [hw]
      simp [Option.bind, hs]
    simp only [halive, if_true]
  · intro conns cid entry hl hdead
    unfold proxyServerAccept
    rw [hl]
    have halive : (entry.clientWs.isSome &&
        decide (entry.clientWs.bind (fun w => w.stateAttr) = some 1)) = false := by
      rw [Bool.and_eq_false_iff]
      by_cases hw : entry.clientWs.isSome = true
      · right
        simp only [decide_eq_false_iff_not]
        intro hbind
        exact hdead ⟨hw, hbind⟩
      · left
        simpa using hw
    simp only [halive, Bool.false_eq_true, if_false]
  · intro conns cid entry hl
    unfold unifiedProxyAccept
    rw [hl]

/-- C2 witness: a second accept for `conn1` while its socket is OPEN is
rejected with 1008 and the registry is unchanged. -/
theorem listener_duplicate_client_policy_witness :
    proxyServerAccept [("conn1", freshEntry)] "conn1" =
      (.rejected 1008 "Connection already exists", [("conn1", freshEntry)]) :=
  listener_duplicate_client_policy.1 [("conn1", freshEntry)] "conn1" freshEntry
    ⟨some 1⟩ rfl rfl rfl

/-- C7 counterexample: a lifecycle meta-event (no `echo`/`retcode`/`status`
key) is dropped by the Sakoya adapter's `send`, not forwarded. -/
theorem meta_event_dropped_by_adapter :
    adapterSend "Bot" [] (.jsonF lifecycleMetaFrame) = (.dropped, []) ∧
    ∀ v, (adapterSend "Bot" [] (.jsonF lifecycleMetaFrame)).1 ≠ .sentJson v :=
  ⟨rfl, fun _ hc => nomatch hc⟩

/-- C7 (amended): frames carrying an `echo`, `retcode` or `status` key
(including heartbeat meta-events, which carry `status`) pass through the
adapter untranslated, as do pass-through actions on non-event frames; but a
meta_event frame without any of those keys (e.g. a lifecycle meta-event) is
dropped, not forwarded. -/
theorem adapter_send_passthrough_policy :
    (∀ (bot : String) (cache : List (String × JVal)) (fs : JFields),
       (fs.hasKey "echo" || fs.hasKey "retcode" || fs.hasKey "status") = true →
       adapterSend bot cache (.jsonF (.obj fs)) = (.sentJson (.obj fs), cache)) ∧
    (∀ (bot : String) (cache : List (String × JVal)) (fs : JFields) (a : String),
       (fs.hasKey "echo" || fs.hasKey "retcode" || fs.hasKey "status") = false →
       (fs.lookup "post_type").getD (.str "") ≠ JVal.str "meta_event" →
       (fs.lookup "post_type").getD (.str "") ≠ JVal.str "message" →
       (fs.lookup "action").getD (.str "") = JVal.str a →
       a ∈ passthroughActions →
       adapterSend bot cache (.jsonF (.obj fs)) = (.sentJson (.obj fs), cache)) ∧
    (∀ (bot : String) (cache : List (String × JVal)) (fs : JFields),
       (fs.hasKey "echo" || fs.hasKey "retcode" || fs.hasKey "status") = false →
       (fs.lookup "post_type").getD (.str "") = JVal.str "meta_event" →
       adapterSend bot cache (.jsonF (.obj fs)) = (.dropped, cache)) := by
  refine ⟨?_, ?_, ?_⟩
  · intro bot cache fs hk
    unfold adapterSend
    dsimp only [pyInB]
    rw [hk]
    rfl
  · intro bot cache fs a hk hmeta hmsg hact hpass
    unfold adapterSend
    dsimp only [pyInB]
    rw [hk]
    simp only [Bool.false_eq_true, if_false]
    rw [if_neg hmeta, if_neg hmsg, hact]
    dsimp only
    rw [if_pos hpass]
  · intro bot cache fs hk hmeta
    unfold adapterSend
    dsimp only [pyInB]
    rw [hk]
    simp only [Bool.false_eq_true, if_false]
    rw [if_pos hmeta]

/-- C7 witness: a `get_login_info` call without response keys is forwarded
as its OneBot JSON unchanged. -/
theorem adapter_send_passthrough_policy_witness :
    adapterSend "Bot" []
      (.jsonF (.obj (.ofList [("action", .str "get_login_info"),
        ("params", .obj .nil)]))) =
    (.sentJson (.obj (.ofList [("action", .str "get_login_info"),
      ("params", .obj .nil)])), []) :=
  adapter_send_passthrough_policy.2.1 "Bot" []
    (.ofList [("action", .str "get_login_info"), ("params", .obj .nil)])
    "get_login_info" rfl (by decide) (by decide) rfl (by decide)

/-- C8 counterexample: a `MessageSend` whose segment has a null `type`
makes `sakoya_send_to_onebot_api` raise (`None.startswith`), so the
conversion does not return an API call for every `MessageSend`. -/
theorem null_type_segment_send_conversion_raises :
    sakoya_send_to_onebot_api { content := some [{ type := none, data := .null }] } "E" =
      .error .attributeError ∧
    ∀ r, sakoya_send_to_onebot_api
      { content := some [{ type := none, data := .null }] } "E" ≠ .ok r :=
  ⟨rfl, fun _ hc => nomatch hc⟩

/-- C8 (amended): whenever `sakoya_send_to_onebot_api` returns (it raises
on a null segment type, and on an ID that passes `isdigit` with non-decimal
digits), the call's action is `send_group_msg` exactly when `target_type`
is `"group"` and `send_private_msg` otherwise, it carries the generated
echo, and `params.message` is never empty — an empty translated list is
replaced by exactly one empty text segment. -/
theorem send_conversion_result_shape
    (m : MessageSend) (echo : String) (r : JVal)
    (h : sakoya_send_to_onebot_api m echo = .ok r) :
    ∃ (tid : Int) (segs : List JVal),
      segs ≠ [] ∧
      (sendSegs (m.content.getD []) = .ok [] → segs = [textSeg ""]) ∧
      r = .obj (.ofList
        [("action", .str (if m.target_type = some "group" then "send_group_msg"
            else "send_private_msg")),
         ("params", .obj (.ofList
           [((if m.target_type = some "group" then "group_id" else "user_id"), .num tid),
            ("message", .arr (JList.ofList segs))])),
         ("echo", .str echo)]) := by
  unfold sakoya_send_to_onebot_api at h
  cases hs : sendSegs (m.content.getD []) with
  | error e =>
    rw [hs] at h
    simp [Bind.bind, Except.bind] at h
  | ok segs0 =>
    rw [hs] at h
    cases ht : optIdToInt m.target_id with
    | error e =>
      rw [ht] at h
      simp [Bind.bind, Except.bind] at h
    | ok tid =>
      rw [ht] at h
      refine ⟨tid, if segs0 = [] then [textSeg ""] else segs0, ?_, ?_, ?_⟩
      · by_cases h0 : segs0 = [] <;> simp [h0]
      · intro hnil
        injection hnil with h0
        simp [h0]
      · by_cases hg : m.target_type = some "group"
        · simp only [Bind.bind, Except.bind, hg, if_true, pure, Except.pure] at h
          cases h
          simp [hg]
        · simp only [Bind.bind, Except.bind, hg, if_false, pure, Except.pure] at h
          cases h
          simp [hg]

/-- C8 witness: an empty-content group send yields a `send_group_msg` call
with one empty text segment. -/
theorem send_conversion_result_shape_witness :
    ∃ (tid : Int) (segs : List JVal),
      segs ≠ [] ∧
      (sendSegs ((some ([] : List SMsg)).getD []) = .ok [] → segs = [textSeg ""]) ∧
      JVal.obj (.ofList
        [("action", .str "send_group_msg"),
         ("params", .obj (.ofList
           [("group_id", .num 7), ("message", .arr (.ofList [textSeg ""]))])),
         ("echo", .str "E")]) = .obj (.ofList
        [("action", .str (if (some "group" : Option String) = some "group"
            then "send_group_msg" else "send_private_msg")),
         ("params", .obj (.ofList
           [((if (some "group" : Option String) = some "group" then "group_id"
              else "user_id"), .num tid),
            ("message", .arr (JList.ofList segs))])),
         ("echo", .str "E")]) :=
  send_conversion_result_shape
    { target_type := some "group", target_id := some "7", content := some [] } "E"
    (.obj (.ofList
      [("action", .str "send_group_msg"),
       ("params", .obj (.ofList
         [("group_id", .num 7), ("message", .arr (.ofList [textSeg ""]))])),
       ("echo", .str "E")])) rfl

/-- C10 counterexample: `'²'` satisfies Python's `str.isdigit`, so the
guard passes, but `int('²')` raises `ValueError` — the conversion can raise
on a malformed ID. -/
theorem superscript_digit_id_raises :
    sakoya_send_to_onebot_api
      { target_type := some "group", target_id := some "²", content := some [] }
      "E" = .error .valueError ∧
    pyStrIsDigit "²" = true :=
  ⟨rfl, rfl⟩

/-- C10 (amended): every numeric ID field emitted by the converters is an
integer; for IDs whose characters are ASCII the conversion does not raise —
a digits-only ID parses to its value and a missing, empty, or otherwise
non-digit ID yields 0.  (An ID containing a non-ASCII digit character such
as `'²'` instead passes the `isdigit` guard and makes `int()` raise.) -/
theorem ascii_id_conversion_yields_integers :
    (∀ (tid : Option String) (echo : String), asciiOpt tid →
       sakoya_send_to_onebot_api
         { target_type := some "group", target_id := tid, content := some [] } echo =
       .ok (.obj (.ofList
         [("action", .str "send_group_msg"),
          ("params", .obj (.ofList
            [("group_id", .num (idVal tid)),
             ("message", .arr (.ofList [textSeg ""]))])),
          ("echo", .str echo)]))) ∧
    (∀ (uid gid mid bsid : Option String),
       asciiOpt uid → asciiOpt gid → asciiOpt mid → asciiOpt bsid →
       sakoya_to_onebot
         { bot_id := .str "Bot", bot_self_id := optStrJ bsid,
           msg_id := optStrJ mid, user_type := .str "group",
           group_id := optStrJ gid, user_id := optStrJ uid,
           sender := .obj .nil, user_pm := .num 3, content := .objs [] } =
       .ok (.obj (.ofList
         [("post_type", .str "message"), ("message_type", .str "group"),
          ("sub_type", .str "normal"), ("message_id", .num (idVal mid)),
          ("group_id", .num (idVal gid)), ("user_id", .num (idVal uid)),
          ("raw_message", .str ""), ("message", .arr .nil), ("font", .num 0),
          ("sender", .obj (.ofList
            [("user_id", .num (idVal uid)), ("nickname", .str ""),
             ("card", .str ""), ("sex", .str "unknown"), ("age", .num 0),
             ("area", .str ""), ("level", .str ""), ("role", .str "member"),
             ("title", .str "")])),
          ("time", .num 0), ("self_id", .num (idVal bsid))]))) := by
  constructor
  · intro tid echo hascii
    unfold sakoya_send_to_onebot_api
    rw [show sendSegs ((some ([] : List SMsg)).getD []) = .ok [] from rfl]
    rw [optIdToInt_ascii hascii]
    rfl
  · intro uid gid mid bsid hu hg hm hb
    unfold sakoya_to_onebot
    dsimp only
    rw [show iterateContent (.objs []) = .ok [] from rfl]
    simp only [Bind.bind, Except.bind]
    rw [show recvSegs [] = .ok ([], []) from rfl]
    simp only [guardedPyInt_ascii hu, guardedPyInt_ascii hm, guardedPyInt_ascii hb,
      guardedPyInt_ascii hg]
    simp only [pyDictGetD, pyTruthy, String.join, pure, Except.pure]
    rfl

/-- C10 witness: a digits-only ID parses to its integer, at `tid = "42"`. -/
theorem ascii_id_conversion_yields_integers_witness :
    sakoya_send_to_onebot_api
      { target_type := some "group", target_id := some "42", content := some [] }
      "E" =
    .ok (.obj (.ofList
      [("action", .str "send_group_msg"),
       ("params", .obj (.ofList
         [("group_id", .num (idVal (some "42"))),
          ("message", .arr (.ofList [textSeg ""]))])),
       ("echo", .str "E")])) :=
  ascii_id_conversion_yields_integers.1 (some "42") "E" (by decide)

/-- C6 counterexample: a `MessageReceive`-shaped frame (with `user_type`
and `sender`) strict-decodes as a `MessageSend` — msgspec ignores unknown
fields — so `recv` converts it to a OneBot API call, not to a message
event. -/
theorem receive_shaped_frame_converted_to_api_call :
    recvModel (.jsonF receiveShapedFrame) "E" =
      .apiCall (.obj (.ofList
        [("action", .str "send_private_msg"),
         ("params", .obj (.ofList
           [("user_id", .num 0), ("message", .arr (.ofList [textSeg "hi"]))])),
         ("echo", .str "E")])) ∧
    ∀ v, recvModel (.jsonF receiveShapedFrame) "E" ≠ .event v :=
  ⟨rfl, fun _ hc => nomatch hc⟩

/-- C6 (amended): every frame that strict-decodes as a `MessageSend` — in
particular every `SakoyaReceive`-shaped JSON object whose shared fields
have `MessageSend`'s types — is converted by `recv` to the OneBot API call
`sakoya_send_to_onebot_api` produces, not to a message event; a frame that
is not JSON at all is returned untouched. -/
theorem adapter_recv_classification :
    (∀ (v : JVal) (ms : MessageSend) (api : JVal) (echo : String),
       decodeMessageSendJ v = some ms →
       sakoya_send_to_onebot_api ms echo = .ok api →
       recvModel (.jsonF v) echo = .apiCall api) ∧
    (∀ (s : String) (echo : String), recvModel (.textF s) echo = .raw (.textF s)) := by
  constructor
  · intro v ms api echo hd hc
    unfold recvModel
    dsimp only
    rw [hd]
    dsimp only
    rw [hc]
  · intro s echo
    rfl

theorem afterPersist_cache_on_echo (h : Hooks) (now : Int) (st : ConnState)
    (sid : JVal) (mdfs : JFields) (m : JVal) (pe : Option EventP)
    (saves : List (JVal × MsgDir)) (logs : List String)
    (hresp : h.handleMessage pe = none)
    (hecho : pyTruthy ((mdfs.lookup "echo").getD .null) = true) :
    (afterPersist h now st sid (.obj mdfs) pe m saves logs).cache =
      (popFirstEcho st.cache st.targets.length
        (pyStr ((mdfs.lookup "echo").getD .null))).2 := by
  unfold afterPersist
  rw [hresp]
  unfold routePhase routeCore
  dsimp only [asObjE]
  rw [hecho]
  rfl

/-- C1: once a client frame carrying echo `e` has been correlated with
target `t` by the echo-cache lookup of `_process_client_message`,
processing pops that entry, so after the frame (the matching API response)
has been processed the cache holds no entry keyed `(t, e)`. -/
theorem echo_entry_removed_after_response_routed
    (h : Hooks) (now : Int) (st : ConnState) (fs mdfs : JFields)
    (m : JVal) (pe : Option EventP) (t : Nat) (info : EchoInfo)
    (hpre : h.preprocesser (.obj fs) = .obj mdfs)
    (hmsg : h.preprocessMsg (.obj mdfs) = (some m, pe))
    (hm : pyTruthy m = true)
    (hresp : h.handleMessage pe = none)
    (hecho : pyTruthy ((mdfs.lookup "echo").getD .null) = true)
    (hsucc : check_api_call_succ pe = true → respDataIsDict pe = true →
      exceptOk (succSave st.cache st.targets.length (selfIdAfter st fs) mdfs) = true)
    (hfind : findFirstEcho st.cache st.targets.length
      (pyStr ((mdfs.lookup "echo").getD .null)) = some (t, info)) :
    cacheLookup (process_client_message h now st (.jsonF (.obj fs))).cache
      (echoKey t (pyStr ((mdfs.lookup "echo").getD .null))) = none := by
  have hcache : (process_client_message h now st (.jsonF (.obj fs))).cache =
      (popFirstEcho st.cache st.targets.length
        (pyStr ((mdfs.lookup "echo").getD .null))).2 := by
    unfold process_client_message
    dsimp only
    rw [hpre, hmsg]
    dsimp only [Option.getD]
    rw [hm, if_pos rfl]
    unfold clientMain
    by_cases hck : check_api_call_succ pe = true
    · rw [hck, if_pos rfl]
      by_cases hdd : respDataIsDict pe = true
      · rw [hdd, if_pos rfl]
        dsimp only [asObjE]
        obtain ⟨saved, hsv⟩ := exceptOk_exists (hsucc hck hdd)
        rw [hsv]
        exact afterPersist_cache_on_echo h now st _ mdfs m pe _ _ hresp hecho
      · rw [Bool.not_eq_true] at hdd
        rw [hdd, if_neg (by simp)]
        exact afterPersist_cache_on_echo h now st _ mdfs m pe _ _ hresp hecho
    · rw [Bool.not_eq_true] at hck
      rw [hck, if_neg (by simp)]
      exact afterPersist_cache_on_echo h now st _ mdfs m pe _ _ hresp hecho
  rw [hcache]
  unfold popFirstEcho
  rw [hfind]
  exact cacheLookup_erase_self _ _

/-- C1 witness: a response with echo `a1` correlated with target 1 leaves
no `(1, a1)` entry behind. -/
theorem echo_entry_removed_after_response_routed_witness :
    cacheLookup (process_client_message (mkHooks none) 0 oneTargetState
      (.jsonF (.obj (.ofList [("echo", .str "a1")])))).cache
      (echoKey 1 (pyStr (((JFields.ofList [("echo", .str "a1")]).lookup "echo").getD .null))) =
      none :=
  echo_entry_removed_after_response_routed (mkHooks none) 0 oneTargetState
    (.ofList [("echo", .str "a1")]) (.ofList [("echo", .str "a1")])
    (.obj (.ofList [("echo", .str "a1")])) none 1
    ⟨.obj (.ofList [("action", .str "send_group_msg")]), 0, 1, "a1"⟩
    rfl rfl rfl rfl rfl
    (fun hck _ => by simp [check_api_call_succ] at hck) rfl

/-- C5 counterexample: a failed API response (`status = "failed"`,
`retcode = 1`) passed on by the preprocessor IS persisted — the else branch
of `_process_client_message` calls `save_message(processed_message, "RECV")`
for it — contradicting "no SaveMessage call is made for that frame". -/
theorem failed_api_response_is_persisted :
    (process_client_message
      (mkHooks (some (.apiResponse (.str "failed") (.num 1) .null (.str "a1"))))
      0 oneTargetState (.jsonF failedRespFrame)).saves =
      [(failedRespFrame, .RECV)] ∧
    (process_client_message
      (mkHooks (some (.apiResponse (.str "failed") (.num 1) .null (.str "a1"))))
      0 oneTargetState (.jsonF failedRespFrame)).saves ≠ [] :=
  ⟨rfl, fun hc => nomatch hc⟩

/-- C5 (amended): a client frame the preprocessor returns that parses as a
failed API response is logged with the originating call's context — the
logged call data truncated to 200 characters — and additionally persisted
via SaveMessage with direction RECV. -/
theorem failed_api_response_logged_and_saved_recv
    (h : Hooks) (now : Int) (st : ConnState) (fs mdfs : JFields) (m : JVal)
    (s r d e : JVal) (t : Nat) (info : EchoInfo)
    (hpre : h.preprocesser (.obj fs) = .obj mdfs)
    (hmsg : h.preprocessMsg (.obj mdfs) = (some m, some (.apiResponse s r d e)))
    (hm : pyTruthy m = true)
    (hfail : s ≠ JVal.str "ok" ∨ r ≠ JVal.num 0)
    (hresp : h.handleMessage (some (.apiResponse s r d e)) = none)
    (hfind : findFirstEcho st.cache st.targets.length (pyStr e) = some (t, info)) :
    (process_client_message h now st (.jsonF (.obj fs))).saves = [(m, .RECV)] ∧
    (process_client_message h now st (.jsonF (.obj fs))).failLogs =
      [if strLen (pyStr info.data) > 200 then
         strTakeN (pyStr info.data) 200 ++ "...[total length: " ++
           toString (strLen (pyStr info.data)) ++ "]"
       else pyStr info.data] := by
  have hck : check_api_call_succ (some (.apiResponse s r d e)) = false := by
    unfold check_api_call_succ
    rcases hfail with hf | hf <;> simp [hf]
  have hstep : process_client_message h now st (.jsonF (.obj fs)) =
      afterPersist h now st (selfIdAfter st fs) (.obj mdfs)
        (some (.apiResponse s r d e)) m [(m, .RECV)]
        (log_api_call_fail st.cache st.targets.length
          (some (.apiResponse s r d e))) := by
    unfold process_client_message
    dsimp only
    rw [hpre, hmsg]
    dsimp only [Option.getD]
    rw [hm, if_pos rfl]
    unfold clientMain
    rw [hck, if_neg (by simp)]
  have hlog : log_api_call_fail st.cache st.targets.length
      (some (.apiResponse s r d e)) =
      [if strLen (pyStr info.data) > 200 then
         strTakeN (pyStr info.data) 200 ++ "...[total length: " ++
           toString (strLen (pyStr info.data)) ++ "]"
       else pyStr info.data] := by
    unfold log_api_call_fail
    dsimp only
    rw [if_pos hfail, hfind]
  constructor
  · rw [hstep]
    unfold afterPersist
    rw [hresp, routePhase_saves]
  · rw [hstep]
    unfold afterPersist
    rw [hresp, routePhase_failLogs, hlog]

/-- C5 witness: at a concrete failed response whose originating call is in
the cache, the frame is saved as RECV and the call context is logged. -/
theorem failed_api_response_logged_and_saved_recv_witness :
    (process_client_message
      (mkHooks (some (.apiResponse (.str "failed") (.num 1) .null (.str "a1"))))
      0 oneTargetState (.jsonF failedRespFrame)).saves =
      [(failedRespFrame, .RECV)] ∧
    (process_client_message
      (mkHooks (some (.apiResponse (.str "failed") (.num 1) .null (.str "a1"))))
      0 oneTargetState (.jsonF failedRespFrame)).failLogs =
      [if strLen (pyStr (JVal.obj (.ofList [("action", .str "send_group_msg")]))) > 200
       then strTakeN (pyStr (JVal.obj (.ofList [("action", .str "send_group_msg")]))) 200 ++
         "...[total length: " ++
         toString (strLen (pyStr (JVal.obj (.ofList [("action", .str "send_group_msg")])))) ++ "]"
       else pyStr (JVal.obj (.ofList [("action", .str "send_group_msg")]))] :=
  failed_api_response_logged_and_saved_recv
    (mkHooks (some (.apiResponse (.str "failed") (.num 1) .null (.str "a1"))))
    0 oneTargetState
    (.ofList [("status", .str "failed"), ("retcode", .num 1), ("echo", .str "a1")])
    (.ofList [("status", .str "failed"), ("retcode", .num 1), ("echo", .str "a1")])
    failedRespFrame (.str "failed") (.num 1) .null (.str "a1") 1
    ⟨.obj (.ofList [("action", .str "send_group_msg")]), 0, 1, "a1"⟩
    rfl rfl rfl (Or.inl (by decide)) rfl rfl

/-- C6 witness: a genuine `MessageSend` frame is converted to the
corresponding group-send API call. -/
theorem adapter_recv_classification_witness :
    recvModel (.jsonF (.obj (.ofList
      [("bot_id", .str "Bot"), ("target_type", .str "group"),
       ("target_id", .str "5"),
       ("content", .arr (.ofList
         [.obj (.ofList [("type", .str "text"), ("data", .str "ok")])]))])))
      "E" =
    .apiCall (.obj (.ofList
      [("action", .str "send_group_msg"),
       ("params", .obj (.ofList
         [("group_id", .num 5), ("message", .arr (.ofList [textSeg "ok"]))])),
       ("echo", .str "E")])) :=
  adapter_recv_classification.1 _
    { bot_id := "Bot", target_type := some "group", target_id := some "5",
      content := some [⟨some "text", .str "ok"⟩] }
    _ "E" rfl rfl


/-- C3 counterexample: an image segment does not survive the
OneBot → Sakoya → OneBot round trip.  The forward converter emits the image
as a bare string `Message`, but the backward converter's image branch only
accepts a dict with `type`/`content` fields, so the segment is dropped from
the rebuilt message list — only its `raw_message` placeholder remains. -/
theorem roundtrip_drops_image_segment :
    onebotSakoyaRoundTrip (mkEvent false 1 2 3 0
        [.img (some "http://x/a.png") none, .text "hi"]) =
      .ok (some (.obj (.ofList
        [("post_type", .str "message"), ("message_type", .str "private"),
         ("sub_type", .str "friend"), ("message_id", .num 2),
         ("user_id", .num 3), ("raw_message", .str "[图片]hi"),
         ("message", .arr (.ofList [textSeg "hi"])), ("font", .num 0),
         ("sender", roundSender 3), ("time", .num 0), ("self_id", .num 1)]))) ∧
    eventField (mkEvent false 1 2 3 0 [.img (some "http://x/a.png") none, .text "hi"])
        "message" =
      some (.arr (.ofList
        [.obj (.ofList [("type", .str "image"),
           ("data", .obj (.ofList [("url", .str "http://x/a.png")]))]),
         textSeg "hi"])) := ⟨rfl, rfl⟩

/-- C3 (amended): for message events over text, at, image and reply
segments, the OneBot → Sakoya → OneBot round trip preserves `user_id`,
`group_id`, and the order and payloads of the text, at and reply segments;
image segments are dropped from the rebuilt segment list (only their
`raw_message` placeholder survives), and `sub_type`, `sender`, `time` are
rebuilt to defaults. -/
theorem onebot_sakoya_roundtrip_preserves_core (isGroup : Bool)
    (sid mid uid gid : Nat) (segs : List Seg) :
    onebotSakoyaRoundTrip (mkEvent isGroup sid mid uid gid segs) =
      .ok (some (mkRoundEvent isGroup sid mid uid gid segs)) := by
  unfold onebotSakoyaRoundTrip
  rw [onebot_event_to_sakoya_mkEvent]
  simp only [Bind.bind, Except.bind]
  rw [decode_mkReceiveJson]
  dsimp only
  rw [sakoya_to_onebot_mkReceiveD]
  rfl

end BotShepherd
